import Mathlib

set_option maxRecDepth 8192

/-!
Shallow embedding of the pyNOVATime timesheet client (src/novatime.py) and
proofs about the claims of its specification.

Modelling conventions:
* Python values (the raw JSON records are `Dict[str, Any]`) are modelled by the
  inductive `Value`; JSON numbers are rationals (`ℚ`), which is exact for every
  value the code manipulates.
* `arrow` instants are modelled by `Arrow`: a wall-clock time (integer
  microseconds since the epoch, as read on the clock of the attached zone —
  the resolution `datetime`/`arrow` actually store) plus the zone.  The
  only zones the program ever attaches are America/Detroit (via
  `.replace(tzinfo='America/Detroit')`) and UTC (via `.to('utc')` and
  `arrow.get(naive datetime)`).  Absolute comparison between instants subtracts
  the zone's UTC offset; the Detroit offset follows the US DST rule (second
  Sunday of March 02:00 to first Sunday of November 02:00, computed on the
  local wall clock).
* Python's `timedelta` is, as in CPython, an integer count of microseconds;
  constructing one from a fractional hour/minute count rounds half-to-even
  exactly as `timedelta(hours=...)`/`timedelta(minutes=...)` do.
* Fallible Python code (KeyError, AttributeError, TypeError, ValueError,
  NameError, arrow parse errors) is modelled with `Except PyError`.
-/

/-- Python exception kinds that the embedded code can raise.
`missingFieldError` is Modelled from the spec: the specification's §7 error
taxonomy names a custom `MissingFieldError` class, but no such class exists
anywhere in the source; the constructor is included only so that statements
can distinguish the spec's expected error from the builtin `KeyError` the
code actually raises. -/
inductive PyError where
  | keyError (k : String)
  | attributeError
  | typeError
  | valueError
  | nameError
  | parseError
  | missingFieldError (k : String)
deriving DecidableEq, Repr

/-! ## Proleptic Gregorian calendar arithmetic

Standard civil-from-days / days-from-civil algorithms (days counted from
1970-01-01).  `Int.fdiv` (floor division) is used where the dividend can be
negative; all other divisions act on provably nonnegative values. -/

/-- Convert a day count (days since 1970-01-01) to a civil date (y, m, d). -/
def civilFromDays (z : Int) : Int × Int × Int :=
  let z' := z + 719468
  let era := Int.fdiv z' 146097
  let doe := z' - era * 146097
  let yoe := Int.ediv (doe - Int.ediv doe 1460 + Int.ediv doe 36524 - Int.ediv doe 146096) 365
  let y := yoe + era * 400
  let doy := doe - (365 * yoe + Int.ediv yoe 4 - Int.ediv yoe 100)
  let mp := Int.ediv (5 * doy + 2) 153
  let d := doy - Int.ediv (153 * mp + 2) 5 + 1
  let m := mp + (if mp < 10 then 3 else -9)
  (y + (if m ≤ 2 then 1 else 0), m, d)

/-- Convert a civil date to a day count (days since 1970-01-01). -/
def daysFromCivil (y m d : Int) : Int :=
  let y' := y - (if m ≤ 2 then 1 else 0)
  let era := Int.fdiv y' 400
  let yoe := y' - era * 400
  let doy := Int.ediv (153 * (m + (if m > 2 then -3 else 9)) + 2) 5 + d - 1
  let doe := yoe * 365 + Int.ediv yoe 4 - Int.ediv yoe 100 + doy
  era * 146097 + doe - 719468

/-- Weekday of a day count, 0 = Monday .. 6 = Sunday (1970-01-01 is Thursday). -/
def weekdayOfDays (z : Int) : Int :=
  Int.emod (z + 3) 7

/-- Gregorian leap-year test. -/
def isLeapYear (y : Int) : Bool :=
  Int.emod y 4 == 0 && (Int.emod y 100 != 0 || Int.emod y 400 == 0)

/-- Number of days in a month (as `datetime.date` validates it). -/
def daysInMonth (y m : Int) : Int :=
  if m = 2 then (if isLeapYear y then 29 else 28)
  else if m = 4 ∨ m = 6 ∨ m = 9 ∨ m = 11 then 30
  else 31

/-- Microseconds per day. -/
def microsPerDay : Int := 86400000000

/-- Microseconds per hour. -/
def microsPerHour : Int := 3600000000

/-- Microseconds per minute. -/
def microsPerMinute : Int := 60000000

/-- Microseconds per second. -/
def microsPerSecond : Int := 1000000

/-- Round `num / den` (with positive `den`) half-to-even, the rounding
`timedelta` applies to a fractional microsecond count. -/
def roundHalfEven (num : Int) (den : Nat) : Int :=
  let q := Int.fdiv num den
  let r := num - q * den
  if 2 * r < den then q
  else if (den : Int) < 2 * r then q + 1
  else if Int.emod q 2 = 0 then q else q + 1

/-- `timedelta(hours=q)` as integer microseconds. -/
def timedeltaOfHours (q : ℚ) : Int :=
  roundHalfEven (q.num * 3600000000) q.den

/-- `timedelta(minutes=q)` as integer microseconds. -/
def timedeltaOfMinutes (q : ℚ) : Int :=
  roundHalfEven (q.num * 60000000) q.den

/-! ## Instants (`arrow.arrow.Arrow`) -/

/-- The only time zones the program ever attaches to an instant. -/
inductive Zone where
  | detroit
  | utc
deriving DecidableEq, Repr

/-- Day number (days since epoch) of the second Sunday of March of year `y`. -/
def secondSundayMarch (y : Int) : Int :=
  let d1 := daysFromCivil y 3 1
  d1 + Int.emod (6 - weekdayOfDays d1) 7 + 7

/-- Day number of the first Sunday of November of year `y`. -/
def firstSundayNovember (y : Int) : Int :=
  let d1 := daysFromCivil y 11 1
  d1 + Int.emod (6 - weekdayOfDays d1) 7

/-- Whether a Detroit wall-clock time (microseconds) falls in US daylight
saving time (second Sunday of March 02:00 through first Sunday of November
02:00, decided on the wall clock). -/
def isDetroitDst (wall : Int) : Bool :=
  let day := Int.fdiv wall microsPerDay
  let y := (civilFromDays day).1
  decide ((secondSundayMarch y * 86400 + 7200) * microsPerSecond ≤ wall) &&
  decide (wall < (firstSundayNovember y * 86400 + 7200) * microsPerSecond)

/-- UTC offset, in microseconds, of a zone at a given wall-clock time. -/
def zoneOffset (z : Zone) (wall : Int) : Int :=
  match z with
  | .utc => 0
  | .detroit => if isDetroitDst wall then -14400000000 else -18000000000

/-- A timezone-aware instant: wall-clock microseconds since the epoch as read
in `zone`, plus the zone itself (how `arrow` stores an aware datetime). -/
structure Arrow where
  wall : Int
  zone : Zone
deriving DecidableEq, Repr

/-- Absolute (UTC) microseconds of an instant; `arrow` compares instants by
this. -/
def absSeconds (a : Arrow) : Int :=
  a.wall - zoneOffset a.zone a.wall

/-- Boolean absolute-order comparison (`<`) between instants. -/
def absLt (a b : Arrow) : Bool :=
  decide (absSeconds a < absSeconds b)

/-- Boolean absolute-order comparison (`≤`) between instants. -/
def absLe (a b : Arrow) : Bool :=
  decide (absSeconds a ≤ absSeconds b)

/-- `Arrow.floor('day')`: truncate the wall clock to midnight. -/
def Arrow.floorDay (a : Arrow) : Arrow :=
  ⟨Int.fdiv a.wall microsPerDay * microsPerDay, a.zone⟩

/-- Day number (days since epoch) of an instant's wall-clock date. -/
def Arrow.dayNumber (a : Arrow) : Int :=
  Int.fdiv a.wall microsPerDay

/-- Adding a `timedelta` (or `.shift(seconds=...)` by its second count):
wall-clock addition, which is what Python's aware `datetime + timedelta`
does. -/
def Arrow.addDelta (a : Arrow) (t : Int) : Arrow :=
  ⟨a.wall + t, a.zone⟩

/-- `.shift(days=n)` / `.shift(weeks=n)` reduced to days. -/
def Arrow.addDays (a : Arrow) (n : Int) : Arrow :=
  a.addDelta (n * microsPerDay)

/-- `.shift(weekday=6)`: move forward to the next Sunday, staying put if the
wall-clock date already is a Sunday (dateutil relativedelta semantics). -/
def Arrow.shiftToSunday (a : Arrow) : Arrow :=
  a.addDays (Int.emod (6 - weekdayOfDays a.dayNumber) 7)

/-- `.to('utc')`: same absolute instant, re-expressed in UTC. -/
def Arrow.toUtc (a : Arrow) : Arrow :=
  ⟨absSeconds a, .utc⟩

/-! ## Python values -/

/-- A Python value as the embedded code manipulates it: JSON scalars,
lists, string-keyed dicts, and parsed `arrow` instants. -/
inductive Value where
  | vnull
  | vbool (b : Bool)
  | vnum (q : ℚ)
  | vstr (s : String)
  | varrow (a : Arrow)
  | vlist (l : List Value)
  | vdict (d : List (String × Value))

/-- Python truthiness of a value. -/
def truthy : Value → Bool
  | .vnull => false
  | .vbool b => b
  | .vnum q => !(q == 0)
  | .vstr s => !(s == "")
  | .varrow _ => true
  | .vlist l => !l.isEmpty
  | .vdict d => !d.isEmpty

/-- Python equality as used on dict keys.  Lists and dicts are unhashable in
Python and can never be dict keys, so only scalar and instant comparisons can
arise; `True == 1` cross-type numeric equality is honoured, and instants
compare by absolute time. -/
def keyEq : Value → Value → Bool
  | .vnull, .vnull => true
  | .vbool a, .vbool b => a == b
  | .vbool a, .vnum q => (if a then (1 : ℚ) else 0) == q
  | .vnum q, .vbool b => q == (if b then (1 : ℚ) else 0)
  | .vnum a, .vnum b => a == b
  | .vstr a, .vstr b => a == b
  | .varrow a, .varrow b => decide (absSeconds a = absSeconds b)
  | _, _ => false

/-- A Python `dict[str, Any]` as an insertion-ordered association list. -/
abbrev Dict := List (String × Value)

/-- Subscript read `d[k]`: raises `KeyError(k)` when the key is absent. -/
def getKey (d : Dict) (k : String) : Except PyError Value :=
  match d.find? (fun p => p.1 == k) with
  | some p => .ok p.2
  | none => .error (.keyError k)

/-- `k in d` / `dict.get`-style lookup. -/
def dictLookup (d : Dict) (k : String) : Option Value :=
  (d.find? (fun p => p.1 == k)).map (fun p => p.2)

/-- Subscript write `d[k] = v`: overwrite in place, or append a new key
(Python dicts keep the original position of an overwritten key). -/
def setKey (d : Dict) (k : String) (v : Value) : Dict :=
  match d with
  | [] => [(k, v)]
  | (k', v') :: rest => if k' == k then (k, v) :: rest else (k', v') :: setKey rest k v

/-- `d1.update(d2)`. -/
def dictUpdate (d1 d2 : Dict) : Dict :=
  d2.foldl (fun acc p => setKey acc p.1 p.2) d1

/-- Coerce to a number the way `timedelta(hours=x)` needs one: numbers pass
through, bools count as 0/1, everything else is a `TypeError`. -/
def asNum : Value → Except PyError ℚ
  | .vnum q => .ok q
  | .vbool b => .ok (if b then 1 else 0)
  | _ => .error .typeError

/-- Python `a or b`. -/
def pyOr (a b : Value) : Value :=
  if truthy a then a else b

/-- Truncation toward zero of a rational (Python `int(float)`). -/
def pyTrunc (q : ℚ) : Int :=
  Int.tdiv q.num q.den

/-- Parse a decimal integer literal (Python `int(str)` on a plain literal). -/
def parseIntString (s : String) : Option Int :=
  match s.data with
  | [] => none
  | '-' :: rest =>
    if rest ≠ [] ∧ rest.all Char.isDigit
    then some (-(rest.foldl (fun n c => 10 * n + ((c.toNat - 48 : Nat) : Int)) 0))
    else none
  | l =>
    if l.all Char.isDigit
    then some (l.foldl (fun n c => 10 * n + ((c.toNat - 48 : Nat) : Int)) 0)
    else none

/-- Python `int(value)`: truncate numbers, parse strings, reject the rest. -/
def pyInt : Value → Except PyError Value
  | .vnum q => .ok (.vnum (pyTrunc q))
  | .vbool b => .ok (.vnum (if b then 1 else 0))
  | .vstr s =>
    match parseIntString s with
    | some n => .ok (.vnum n)
    | none => .error .valueError
  | _ => .error .typeError

/-- The list-or-None idiom `[...] or None` of the serializers. -/
def listOrNone (l : List Value) : Value :=
  if l.isEmpty then .vnull else .vlist l

/-! ## Date/time normalization (src/novatime.py lines 52-61) -/

/-- Parse two decimal digits. -/
def twoDigits (a b : Char) : Except PyError Nat :=
  if a.isDigit ∧ b.isDigit
  then .ok (10 * (a.toNat - 48) + (b.toNat - 48))
  else .error .parseError

/-- Parse four decimal digits. -/
def fourDigits (a b c d : Char) : Except PyError Nat :=
  if a.isDigit ∧ b.isDigit ∧ c.isDigit ∧ d.isDigit
  then .ok (1000 * (a.toNat - 48) + 100 * (b.toNat - 48) + 10 * (c.toNat - 48) + (d.toNat - 48))
  else .error .parseError

/-- `arrow.get(s, 'MM/DD/YYYY HH:mm:ss')` followed by
`.replace(tzinfo='America/Detroit')`: strict two-digit fields, calendar and
clock validation as `datetime` performs it, Detroit wall clock attached. -/
def parsePunchFormat (s : String) : Except PyError Arrow :=
  match s.data with
  | [m1, m2, c1, d1, d2, c2, y1, y2, y3, y4, sp, h1, h2, c3, n1, n2, c4, x1, x2] =>
    if c1 = '/' ∧ c2 = '/' ∧ sp = ' ' ∧ c3 = ':' ∧ c4 = ':' then do
      let mo ← twoDigits m1 m2
      let da ← twoDigits d1 d2
      let yr ← fourDigits y1 y2 y3 y4
      let hh ← twoDigits h1 h2
      let mi ← twoDigits n1 n2
      let ss ← twoDigits x1 x2
      if 1 ≤ mo ∧ mo ≤ 12 ∧ 1 ≤ da ∧ (da : Int) ≤ daysInMonth yr mo ∧ hh ≤ 23 ∧ mi ≤ 59 ∧ ss ≤ 59
      then .ok ⟨(daysFromCivil yr mo da * 86400 + (hh * 3600 + mi * 60 + ss : Nat)) * microsPerSecond, .detroit⟩
      else .error .parseError
    else .error .parseError
  | _ => .error .parseError

/-- `parse_punch` (src/novatime.py lines 52-56): strings are parsed in the
vendor punch format and anchored to Detroit; any non-string value is returned
unchanged. -/
def parse_punch (v : Value) : Except PyError Value :=
  match v with
  | .vstr s => (parsePunchFormat s).map (fun a => .varrow a)
  | _ => .ok v

/-- `arrow.get(s, 'HH:mmA')` reduced to the parsed seconds-of-day (the only
use combines it with a punch date immediately). -/
def parseTimeHHmmA (s : String) : Except PyError Nat :=
  match s.data with
  | [h1, h2, c1, n1, n2, a, m] =>
    if c1 = ':' ∧ (m = 'M' ∨ m = 'm') ∧ (a = 'A' ∨ a = 'a' ∨ a = 'P' ∨ a = 'p') then do
      let hh ← twoDigits h1 h2
      let mi ← twoDigits n1 n2
      if hh ≤ 23 ∧ mi ≤ 59 then
        let isPm := a = 'P' ∨ a = 'p'
        let hh' := if isPm ∧ hh < 12 then hh + 12 else if ¬isPm ∧ hh = 12 then 0 else hh
        .ok (hh' * 3600 + mi * 60)
      else .error .parseError
    else .error .parseError
  | _ => .error .parseError

/-! ## The vendor write timestamp format -/

/-- Zero-padded decimal rendering of a natural number. -/
def padNat (width n : Nat) : String :=
  let s := toString n
  String.mk (List.replicate (width - s.length) '0') ++ s

/-- `.format('YYYY-MM-DDTHH:mm:ss.SSS[Z]')` of an (already UTC) instant. -/
def formatWrite (a : Arrow) : String :=
  let day := Int.fdiv a.wall microsPerDay
  let ymd := civilFromDays day
  let rem : Int := a.wall - day * microsPerDay
  let msTotal : Nat := (Int.fdiv rem 1000).toNat
  let hh := msTotal / 3600000
  let mi := msTotal % 3600000 / 60000
  let ss := msTotal % 60000 / 1000
  let ms := msTotal % 1000
  padNat 4 ymd.1.toNat ++ "-" ++ padNat 2 ymd.2.1.toNat ++ "-" ++ padNat 2 ymd.2.2.toNat ++
    "T" ++ padNat 2 hh ++ ":" ++ padNat 2 mi ++ ":" ++ padNat 2 ss ++ "." ++ padNat 3 ms ++ "Z"

/-- The `x.to('utc').format(WRITE_ENTRY_FORMAT)` idiom of `write_dict`:
requires a parsed instant (attribute access on anything else raises). -/
def toUtcWriteValue (v : Value) : Except PyError Value :=
  match v with
  | .varrow a => .ok (.vstr (formatWrite a.toUtc))
  | _ => .error .attributeError

/-! ## Value objects (src/novatime.py lines 64-884) -/

/-- A `timedelta`: an integer count of microseconds, exactly as CPython
stores it. -/
abbrev Timedelta := Int

/-- GPS value object (lines 82-99): both fields are stored exactly as the raw
record supplies them (the vendor sends null for untracked punches). -/
structure GPS where
  latitude : Value
  longitude : Value

/-- `GPS.to_dict` (lines 95-99). -/
def GPS.to_dict (g : GPS) : Dict :=
  [("nGPSLatitude", g.latitude), ("nGPSLongitude", g.longitude)]

/-- `DatePeriod` (lines 64-75): both bounds go through `parse_punch`. -/
structure DatePeriod where
  start : Value
  stop : Value

/-- `DatePeriod.__init__` (lines 70-72); `stop` models the source's `end`
attribute, which is a reserved word in Lean. -/
def DatePeriod.init (start stop : Value) : Except PyError DatePeriod := do
  let s ← parse_punch start
  let e ← parse_punch stop
  .ok ⟨s, e⟩

/-- `User` (lines 102-128): only the identity fields the timesheet code uses. -/
structure User where
  username : Value
  password : Value
  user_seq : Value
  employee_seq : Value
  access_seq : Value
  first_name : Value
  last_name : Value
  full_name : Value

/-- `HoursGroup` (lines 143-185): the five `n{type}OT{1..5}Hours` fields,
converted from hours to durations. -/
structure HoursGroup where
  overtime_1 : Timedelta
  overtime_2 : Timedelta
  overtime_3 : Timedelta
  overtime_4 : Timedelta
  overtime_5 : Timedelta
  ot_type : String

/-- `HoursGroup.__init__` (lines 153-166): `timedelta(hours=...)` on each. -/
def HoursGroup.init (o1 o2 o3 o4 o5 : Value) (ot_type : String) : Except PyError HoursGroup := do
  let q1 ← asNum o1
  let q2 ← asNum o2
  let q3 ← asNum o3
  let q4 ← asNum o4
  let q5 ← asNum o5
  .ok ⟨timedeltaOfHours q1, timedeltaOfHours q2, timedeltaOfHours q3,
       timedeltaOfHours q4, timedeltaOfHours q5, ot_type⟩

/-- `HoursGroup.to_dict` (lines 178-185): back to hours under the
`n{type}OT{i}Hours` keys. -/
def HoursGroup.to_dict (h : HoursGroup) : Dict :=
  [("n" ++ h.ot_type ++ "OT1Hours", .vnum ((h.overtime_1 : ℚ) / 3600000000)),
   ("n" ++ h.ot_type ++ "OT2Hours", .vnum ((h.overtime_2 : ℚ) / 3600000000)),
   ("n" ++ h.ot_type ++ "OT3Hours", .vnum ((h.overtime_3 : ℚ) / 3600000000)),
   ("n" ++ h.ot_type ++ "OT4Hours", .vnum ((h.overtime_4 : ℚ) / 3600000000)),
   ("n" ++ h.ot_type ++ "OT5Hours", .vnum ((h.overtime_5 : ℚ) / 3600000000))]

/-- `HourTotals` (lines 199-212). -/
structure HourTotals where
  last_week : Timedelta
  this_week : Timedelta
  total : Timedelta

/-- `Schedule` (lines 385-424): `nScheduleHours` becomes a duration, the rest
is stored raw. -/
structure Schedule where
  schedule : Value
  is_schedule_premium : Value
  is_schedule_premium_user_override : Value
  schedule_hours : Timedelta
  grouping_string : Value

/-- `Schedule.__init__` (lines 394-405). -/
def Schedule.init (schedule isPrem isPremOverride hours grouping : Value) : Except PyError Schedule := do
  let q ← asNum hours
  .ok ⟨schedule, isPrem, isPremOverride, timedeltaOfHours q, grouping⟩

/-- `Schedule.to_dict` (lines 417-424). -/
def Schedule.to_dict (s : Schedule) : Dict :=
  [("cSchedule", s.schedule),
   ("isSchedulePremium", s.is_schedule_premium),
   ("isSchedulePremiumUserOverride", s.is_schedule_premium_user_override),
   ("nScheduleHours", .vnum ((s.schedule_hours : ℚ) / 3600000000)),
   ("SchGroupingString", s.grouping_string)]

/-- `PayCode` (lines 438-487): a plain bag of twenty raw vendor fields, no
unit conversion anywhere. -/
structure PayCode where
  code : Value
  description : Value
  code_type : Value
  read_only : Value
  pay_type : Value
  policy : Value
  policy_description : Value
  rate : Value
  code_description : Value
  show_schedule : Value
  non_compute_calc : Value
  overtime_1 : Value
  overtime_2 : Value
  overtime_3 : Value
  overtime_4 : Value
  overtime_5 : Value
  amount : Value
  premium : Value
  regular : Value
  total : Value

/-- `PayCode.to_dict` (lines 465-487). -/
def PayCode.to_dict (p : PayCode) : Dict :=
  [("nPayCode", p.code),
   ("cExpCode", p.description),
   ("nCodeType", p.code_type),
   ("lPayCodeReadOnly", p.read_only),
   ("cPayType", p.pay_type),
   ("nPayPolicy", p.policy),
   ("cPayPolicyDescription", p.policy_description),
   ("nPayRate", p.rate),
   ("cPayCodeDescription", p.code_description),
   ("lShowSchedulePayCode", p.show_schedule),
   ("lNonComputeCalcPayCode", p.non_compute_calc),
   ("nOT1Pay", p.overtime_1),
   ("nOT2Pay", p.overtime_2),
   ("nOT3Pay", p.overtime_3),
   ("nOT4Pay", p.overtime_4),
   ("nOT5Pay", p.overtime_5),
   ("nPayAmount", p.amount),
   ("nPremiumPay", p.premium),
   ("nRegPay", p.regular),
   ("nTotalPay", p.total)]

/-- `TimesheetEntryException` (lines 515-656): 23 raw flag/description fields
plus four minute counts converted to durations and three raw quantity fields. -/
structure TimesheetEntryException where
  break_desc : Value
  meal_desc : Value
  auto_deduct_meal : Value
  auto_meal_waived : Value
  early_in : Value
  early_out : Value
  early_out_grace : Value
  late_out : Value
  late_out_to_meal : Value
  meal_break_premium : Value
  missing_punch : Value
  over_pay : Value
  overtime : Value
  tardy : Value
  tardy_grace : Value
  unauthorized_ot : Value
  unconfirmed_in : Value
  unconfirmed_in_punch : Value
  unconfirmed_out : Value
  unconfirmed_out_punch : Value
  unconfirmed_punch : Value
  under_pay : Value
  unpaid_break : Value
  auto_meal_minutes : Timedelta
  early_out_minutes : Timedelta
  long_meal : Value
  meal_val_minutes : Timedelta
  quantity_bad : Value
  quantity_good : Value
  tardy_minutes : Timedelta

/-- `TimesheetEntryException.__init__` (lines 551-612): `timedelta(minutes=x)`
on the four minute fields. -/
def TimesheetEntryException.init
    (break_desc meal_desc auto_deduct_meal auto_meal_waived early_in early_out
     early_out_grace late_out late_out_to_meal meal_break_premium missing_punch
     over_pay overtime tardy tardy_grace unauthorized_ot unconfirmed_in
     unconfirmed_in_punch unconfirmed_out unconfirmed_out_punch unconfirmed_punch
     under_pay unpaid_break auto_meal_minutes early_out_minutes long_meal
     meal_val_minutes quantity_bad quantity_good tardy_minutes : Value) :
    Except PyError TimesheetEntryException := do
  let amm ← asNum auto_meal_minutes
  let eom ← asNum early_out_minutes
  let mvm ← asNum meal_val_minutes
  let tdm ← asNum tardy_minutes
  .ok ⟨break_desc, meal_desc, auto_deduct_meal, auto_meal_waived, early_in,
       early_out, early_out_grace, late_out, late_out_to_meal, meal_break_premium,
       missing_punch, over_pay, overtime, tardy, tardy_grace, unauthorized_ot,
       unconfirmed_in, unconfirmed_in_punch, unconfirmed_out, unconfirmed_out_punch,
       unconfirmed_punch, under_pay, unpaid_break, timedeltaOfMinutes amm,
       timedeltaOfMinutes eom, long_meal, timedeltaOfMinutes mvm, quantity_bad,
       quantity_good, timedeltaOfMinutes tdm⟩

/-- `TimesheetEntryException.to_dict` (lines 624-656). -/
def TimesheetEntryException.to_dict (e : TimesheetEntryException) : Dict :=
  [("cBreakException", e.break_desc),
   ("cMealException", e.meal_desc),
   ("lAutoDeductMealException", e.auto_deduct_meal),
   ("lAutoMealWaivedException", e.auto_meal_waived),
   ("lEarlyInException", e.early_in),
   ("lEarlyOutException", e.early_out),
   ("lEarlyOutGraceException", e.early_out_grace),
   ("lLateOutException", e.late_out),
   ("lLateOutToMealException", e.late_out_to_meal),
   ("lMealBreakPremiumException", e.meal_break_premium),
   ("lMissingPunchException", e.missing_punch),
   ("lOverPayException", e.over_pay),
   ("lOvertimeException", e.overtime),
   ("lTardyException", e.tardy),
   ("lTardyGraceException", e.tardy_grace),
   ("lUnauthorizedOT", e.unauthorized_ot),
   ("lUnconfirmedInException", e.unconfirmed_in),
   ("lUnconfirmedInPunch", e.unconfirmed_in_punch),
   ("lUnconfirmedOutException", e.unconfirmed_out),
   ("lUnconfirmedOutPunch", e.unconfirmed_out_punch),
   ("lUnconfirmedPunchException", e.unconfirmed_punch),
   ("lUnderPayException", e.under_pay),
   ("lUnpaidBreakException", e.unpaid_break),
   ("nAutoMealMinutes", .vnum ((e.auto_meal_minutes : ℚ) / 60000000)),
   ("nEarlyOutMinutes", .vnum ((e.early_out_minutes : ℚ) / 60000000)),
   ("nLongMeal", e.long_meal),
   ("nMealValMinutes", .vnum ((e.meal_val_minutes : ℚ) / 60000000)),
   ("nQuantityBad", e.quantity_bad),
   ("nQuantityGood", e.quantity_good),
   ("nTardyMinutes", .vnum ((e.tardy_minutes : ℚ) / 60000000))]

/-- `TimesheetEntryNote` (lines 697-727): seven raw fields. -/
structure TimesheetEntryNote where
  in_out_expression : Value
  more_info : Value
  notes : Value
  author : Value
  reason_code : Value
  reason_color : Value
  id : Value

/-- `TimesheetEntryNote.to_dict` (lines 718-727). -/
def TimesheetEntryNote.to_dict (n : TimesheetEntryNote) : Dict :=
  [("cInOutExpression", n.in_out_expression),
   ("cMoreInfo", n.more_info),
   ("cNotes", n.notes),
   ("cAuthor", n.author),
   ("cReasonCode", n.reason_code),
   ("cReasonColor", n.reason_color),
   ("iNoteSeq", n.id)]

/-- `TimesheetEntryStatus` (lines 742-796): nineteen raw fields. -/
structure TimesheetEntryStatus where
  approval : Value
  audit : Value
  calc_override : Value
  carryover_expansion_or_changed : Value
  compute_non_calc : Value
  elapsed_time : Value
  has_last_change_day : Value
  is_tga_record : Value
  pending : Value
  pending_calc : Value
  read_only : Value
  read_only_reason : Value
  ref_time : Value
  reversed : Value
  within_pay_period : Value
  auto_pay_no_delete : Value
  approval_status : Value
  calculate : Value
  reverse_status : Value

/-- `TimesheetEntryStatus.to_dict` (lines 775-796). -/
def TimesheetEntryStatus.to_dict (s : TimesheetEntryStatus) : Dict :=
  [("lApprovalStatus", s.approval),
   ("lAudit", s.audit),
   ("lCalcOverride", s.calc_override),
   ("lCarryoverExpansionORChanged", s.carryover_expansion_or_changed),
   ("lComputeNonCalc", s.compute_non_calc),
   ("lElapsedTime", s.elapsed_time),
   ("lHasLstChgDay", s.has_last_change_day),
   ("lIsTGARecord", s.is_tga_record),
   ("lPending", s.pending),
   ("lPendingCalc", s.pending_calc),
   ("lReadOnly", s.read_only),
   ("ReadOnlyReasonCodeDescription", s.read_only_reason),
   ("lRefTime", s.ref_time),
   ("lReversed", s.reversed),
   ("lWithinPP", s.within_pay_period),
   ("lAutoPayNoDelete", s.auto_pay_no_delete),
   ("nApprovalStatus", s.approval_status),
   ("nCalculate", s.calculate),
   ("nReverseStatus", s.reverse_status)]

/-- `Punch` (lines 825-867).  `adjust` is `none` when the constructor's
`isinstance(adjust, str)` guard was false: the attribute is then never
assigned, and any later read of it raises `AttributeError`. -/
structure Punch where
  punch : Value
  adjust : Option Value
  modified : Value
  gps : Value
  site : Value
  og : Value
  net_chk_fail : Value
  expression : Value
  expression_save : Value
  timezone : Value
  recording : Value

/-- `Punch.__init__` (lines 839-867): the punch, original and timezone values
go through `parse_punch`; a string `adjust` is parsed as `HH:mmA` and combined
with the punch's wall-clock date into a naive (hence UTC-tagged) instant. -/
def Punch.init (punch adjust modified gps site og net_chk_fail expression
    expression_save timezone recording : Value) : Except PyError Punch := do
  let p ← parse_punch punch
  let adj ← match adjust with
    | .vstr s => do
      let tod ← parseTimeHHmmA s
      match p with
      | .varrow pa => pure (some (Value.varrow ⟨pa.dayNumber * microsPerDay + tod * microsPerSecond, .utc⟩))
      | _ => throw PyError.attributeError
    | _ => pure none
  let ogP ← parse_punch og
  let tz ← parse_punch timezone
  .ok ⟨p, adj, modified, gps, site, ogP, net_chk_fail, expression, expression_save, tz, recording⟩

/-- Read of an attribute that may never have been assigned (`Punch.adjust`):
raises `AttributeError` when unset. -/
def readAttr (v : Option Value) : Except PyError Value :=
  match v with
  | some x => .ok x
  | none => .error .attributeError

/-- `EntryCategory` (lines 215-270). -/
structure EntryCategory where
  value : Value
  description : Value
  group_number : Value
  group_seq : Value
  group_code : Value
  group_user_type : Value
  gps : GPS
  group_color : Value
  group_value_description : Value
  closed : Value

/-- `EntryCategory.__init__` (lines 231-242): consumes one raw group dict,
reading the vendor keys in source order; subscripting a non-dict raises. -/
def EntryCategory.init (group : Value) : Except PyError EntryCategory :=
  match group with
  | .vdict g => do
    let description ← getKey g "cDescription"
    let group_code ← getKey g "cGroupCode"
    let group_color ← getKey g "cGroupColor"
    let value ← getKey g "cGroupValue"
    let group_value_description ← getKey g "cGroupValueDescription"
    let group_number ← getKey g "iGroupNumber"
    let group_user_type ← getKey g "iGroupUserType"
    let group_seq ← getKey g "iGroupValueSeq"
    let closed ← getKey g "lClosed"
    let lat ← getKey g "nGPSLatitude"
    let lon ← getKey g "nGPSLongitude"
    .ok ⟨value, description, group_number, group_seq, group_code, group_user_type,
         ⟨lat, lon⟩, group_color, group_value_description, closed⟩
  | _ => .error .typeError

/-- `EntryCategory.to_dict` (lines 247-260). -/
def EntryCategory.to_dict (c : EntryCategory) : Dict :=
  dictUpdate
    [("iGroupNumber", c.group_number),
     ("iGroupValueSeq", c.group_seq),
     ("cGroupValue", c.value),
     ("cGroupValueDescription", c.group_value_description),
     ("cGroupCode", c.group_code),
     ("iGroupUserType", c.group_user_type),
     ("cGroupColor", c.group_color),
     ("cDescription", c.description),
     ("lClosed", c.closed)]
    c.gps.to_dict

/-- `EntryCategory.write_dict` (lines 262-270): the narrow write shape, with
`int(...)` applied to the group sequence. -/
def EntryCategory.write_dict (c : EntryCategory) : Except PyError Dict := do
  let seq ← pyInt c.group_seq
  .ok [("iGroupNumber", c.group_number),
       ("iGroupValueSeq", seq),
       ("cGroupValue", c.value),
       ("cGroupValueDescription", c.group_value_description),
       ("isValid", .vbool true)]

/-! ## TimesheetEntry (src/novatime.py lines 886-1362) -/

/-- The aggregate timesheet line (lines 886-960).  Fields the constructor
converts (hour/minute counts, parsed dates) are typed; fields it stores
verbatim stay `Value`. -/
structure TimesheetEntry where
  sheet_sequence : Value
  week_group_string : Value
  pay_period : DatePeriod
  work_period : DatePeriod
  entry_sequence : Value
  employee : User
  punch_date : Value
  work_date : Value
  punch_date_time : Value
  punch_in : Punch
  punch_out : Option Punch
  date_key : Value
  work_hours : Timedelta
  total_hours : Timedelta
  comp_hours : Timedelta
  daily_hours : Timedelta
  daily_total_hours : Timedelta
  weekly_hours : Timedelta
  weekly_hours_total : Timedelta
  overtime_hours : HoursGroup
  comp_overtime_hours : HoursGroup
  raw_comp_overtime_hours : HoursGroup
  redirect_overtime_hours : HoursGroup
  pay_code : PayCode
  categories : List EntryCategory
  accessible_group_list : List EntryCategory
  invalid_group_list : List EntryCategory
  grouping : EntryCategory
  grouping_string : Value
  group_level : Value
  group_code : Value
  expected_meal_times : List (Value × DatePeriod)
  exceptions : TimesheetEntryException
  status : TimesheetEntryStatus
  schedule : Schedule
  note : TimesheetEntryNote
  overtime_total_hours_one_punch : Value
  shift_expression : Value
  record_type : Value
  adjustment_date : Value
  reverse_date : Value
  last_modified : Value
  carryover_expansion_override : Value
  assign_id : Value
  copy_color : Value

/-- `timedelta(hours=entry[k])`. -/
def hoursField (entry : Dict) (k : String) : Except PyError Timedelta := do
  let v ← getKey entry k
  let q ← asNum v
  .ok (timedeltaOfHours q)

/-- One `HoursGroup(ot_type=tag, overtime_i=entry["n" + tag + "OT" + i + "Hours"])`
construction (lines 1026-1056). -/
def hoursGroupOf (entry : Dict) (tag : String) : Except PyError HoursGroup := do
  let o1 ← getKey entry ("n" ++ tag ++ "OT1Hours")
  let o2 ← getKey entry ("n" ++ tag ++ "OT2Hours")
  let o3 ← getKey entry ("n" ++ tag ++ "OT3Hours")
  let o4 ← getKey entry ("n" ++ tag ++ "OT4Hours")
  let o5 ← getKey entry ("n" ++ tag ++ "OT5Hours")
  HoursGroup.init o1 o2 o3 o4 o5 tag

/-- Insertion-ordered upsert for the `expected_meal_times` map. -/
def mealUpsert (m : List (Value × DatePeriod)) (k : Value) (p : DatePeriod) :
    List (Value × DatePeriod) :=
  match m with
  | [] => [(k, p)]
  | (k', p') :: rest => if keyEq k' k then (k, p) :: rest else (k', p') :: mealUpsert rest k p

/-- The `ExpectedMealTimes` loop (lines 1101-1107): each element is a dict
with `iIndex`/`tStartTime`/`tEndTime`, keyed into the map by its index. -/
def mealTimesFold : List Value → List (Value × DatePeriod) →
    Except PyError (List (Value × DatePeriod))
  | [], acc => .ok acc
  | m :: rest, acc =>
    match m with
    | .vdict md => do
      let idx ← getKey md "iIndex"
      let ts ← getKey md "tStartTime"
      let te ← getKey md "tEndTime"
      let p ← DatePeriod.init ts te
      mealTimesFold rest (mealUpsert acc idx p)
    | _ => .error .typeError

/-- An optional category list (lines 1081-1094): falsy means empty, a truthy
value is iterated and each element built into an `EntryCategory`. -/
def categoryListOf (v : Value) : Except PyError (List EntryCategory) :=
  if truthy v then
    match v with
    | .vlist gs => gs.mapM EntryCategory.init
    | _ => .error .typeError
  else .ok []

/-- `TimesheetEntry.__init__` (lines 962-1190), reading the raw record's keys
in exactly the source's order; the only guarded key is `iTimeSeq`
(try/except KeyError, defaulting to -1). -/
def TimesheetEntry.init (entry : Dict) : Except PyError TimesheetEntry := do
  let sheet_sequence ← getKey entry "iTimesheetSeq"
  let week_group_string ← getKey entry "WeekGroupString"
  let pps ← getKey entry "dPayPeriodStart"
  let ppe ← getKey entry "dPayPeriodEnd"
  let pay_period ← DatePeriod.init pps ppe
  let wps ← getKey entry "dWorkPeriodStartDate"
  let wpe ← getKey entry "dWorkPeriodEndDate"
  let work_period ← DatePeriod.init wps wpe
  let entry_sequence := match dictLookup entry "iTimeSeq" with
    | some v => v
    | none => .vnum (-1)
  let empSeq ← getKey entry "iEmployeeSeq"
  let empId ← getKey entry "cEmployeeID"
  let empFirst ← getKey entry "cEmployeeFirstName"
  let empLast ← getKey entry "cEmployeeLastName"
  let empFull ← getKey entry "cEmployeeFullName"
  let employee : User := ⟨empId, .vnull, .vnull, empSeq, .vnull, empFirst, empLast, empFull⟩
  let pdv ← getKey entry "dPunchDate"
  let punch_date ← parse_punch pdv
  let wdv ← getKey entry "dWorkDate"
  let work_date ← parse_punch wdv
  let pdtv ← getKey entry "tPunchDateTime"
  let punch_date_time ← parse_punch pdtv
  let inPunch ← getKey entry "dIn"
  let inAdj ← getKey entry "nAdjustIn"
  let inMod ← getKey entry "lInMod"
  let inGps ← getKey entry "cInGPS"
  let inSite ← getKey entry "cSiteIn"
  let inOg ← getKey entry "dOGIn"
  let inNet ← getKey entry "lInNetChkFail"
  let inExpr ← getKey entry "cInExpression"
  let inExprS ← getKey entry "cInExpressionSave"
  let inTz ← getKey entry "nTZIn"
  let inRec ← getKey entry "mInRecording"
  let punch_in ← Punch.init inPunch inAdj inMod inGps inSite inOg inNet inExpr inExprS inTz inRec
  let dOutV ← getKey entry "dOut"
  let punch_out ← (match dOutV with
    | .vnull => pure (none : Option Punch)
    | _ => do
      let outAdj ← getKey entry "nAdjustOut"
      let outMod ← getKey entry "lOutMod"
      let outGps ← getKey entry "cOutGPS"
      let outSite ← getKey entry "cSiteOut"
      let outOg ← getKey entry "dOGOut"
      let outNet ← getKey entry "lOutNetChkFail"
      let outExpr ← getKey entry "cOutExpression"
      let outExprS ← getKey entry "cOutExpressionSave"
      let outTz ← getKey entry "nTZOut"
      let outRec ← getKey entry "mOutRecording"
      let p ← Punch.init dOutV outAdj outMod outGps outSite outOg outNet outExpr outExprS outTz outRec
      pure (some p))
  let date_key ← getKey entry "DateKey"
  let work_hours ← hoursField entry "nWorkHours"
  let total_hours ← hoursField entry "nTotalHours"
  let comp_hours ← hoursField entry "nCompHours"
  let daily_hours ← hoursField entry "nDailyHours"
  let daily_total_hours ← hoursField entry "nDailyTotalHours"
  let weekly_hours ← hoursField entry "nWeeklyHours"
  let weekly_hours_total ← hoursField entry "nWeeklyTotalHours"
  let overtime_hours ← hoursGroupOf entry ""
  let comp_overtime_hours ← hoursGroupOf entry "Comp"
  let raw_comp_overtime_hours ← hoursGroupOf entry "RawComp"
  let redirect_overtime_hours ← hoursGroupOf entry "Redirect"
  let pcCode ← getKey entry "nPayCode"
  let pcDesc ← getKey entry "cExpCode"
  let pcType ← getKey entry "nCodeType"
  let pcRo ← getKey entry "lPayCodeReadOnly"
  let pcPayType ← getKey entry "cPayType"
  let pcPolicy ← getKey entry "nPayPolicy"
  let pcPolicyDesc ← getKey entry "cPayPolicyDescription"
  let pcRate ← getKey entry "nPayRate"
  let pcCodeDesc ← getKey entry "cPayCodeDescription"
  let pcShowSched ← getKey entry "lShowSchedulePayCode"
  let pcNonComp ← getKey entry "lNonComputeCalcPayCode"
  let pcOt1 ← getKey entry "nOT1Pay"
  let pcOt2 ← getKey entry "nOT2Pay"
  let pcOt3 ← getKey entry "nOT3Pay"
  let pcOt4 ← getKey entry "nOT4Pay"
  let pcOt5 ← getKey entry "nOT5Pay"
  let pcAmount ← getKey entry "nPayAmount"
  let pcPremium ← getKey entry "nPremiumPay"
  let pcRegular ← getKey entry "nRegPay"
  let pcTotal ← getKey entry "nTotalPay"
  let pay_code : PayCode := ⟨pcCode, pcDesc, pcType, pcRo, pcPayType, pcPolicy,
    pcPolicyDesc, pcRate, pcCodeDesc, pcShowSched, pcNonComp, pcOt1, pcOt2, pcOt3,
    pcOt4, pcOt5, pcAmount, pcPremium, pcRegular, pcTotal⟩
  let gvlV ← getKey entry "GroupValueList"
  let categories ← categoryListOf gvlV
  let aglV ← getKey entry "AccessibleGroupList"
  let accessible_group_list ← categoryListOf aglV
  let iglV ← getKey entry "InvalidGroupList"
  let invalid_group_list ← categoryListOf iglV
  let groupingV ← getKey entry "Grouping"
  let grouping ← EntryCategory.init groupingV
  let grouping_string ← getKey entry "GroupingString"
  let group_level ← getKey entry "cGroupLevel"
  let group_code ← getKey entry "cGroupCode"
  let emtV ← getKey entry "ExpectedMealTimes"
  let expected_meal_times ← (if truthy emtV then
      match emtV with
      | .vlist ms => mealTimesFold ms []
      | _ => throw PyError.typeError
    else pure [])
  let exBreak ← getKey entry "cBreakException"
  let exMeal ← getKey entry "cMealException"
  let exAdm ← getKey entry "lAutoDeductMealException"
  let exAmw ← getKey entry "lAutoMealWaivedException"
  let exEi ← getKey entry "lEarlyInException"
  let exEo ← getKey entry "lEarlyOutException"
  let exEog ← getKey entry "lEarlyOutGraceException"
  let exLo ← getKey entry "lLateOutException"
  let exLotm ← getKey entry "lLateOutToMealException"
  let exMbp ← getKey entry "lMealBreakPremiumException"
  let exMp ← getKey entry "lMissingPunchException"
  let exOp ← getKey entry "lOverPayException"
  let exOt ← getKey entry "lOvertimeException"
  let exTy ← getKey entry "lTardyException"
  let exTyg ← getKey entry "lTardyGraceException"
  let exUot ← getKey entry "lUnauthorizedOT"
  let exUi ← getKey entry "lUnconfirmedInException"
  let exUip ← getKey entry "lUnconfirmedInPunch"
  let exUo ← getKey entry "lUnconfirmedOutException"
  let exUop ← getKey entry "lUnconfirmedOutPunch"
  let exUp ← getKey entry "lUnconfirmedPunchException"
  let exUnder ← getKey entry "lUnderPayException"
  let exUb ← getKey entry "lUnpaidBreakException"
  let exAmm ← getKey entry "nAutoMealMinutes"
  let exEom ← getKey entry "nEarlyOutMinutes"
  let exLm ← getKey entry "nLongMeal"
  let exMvm ← getKey entry "nMealValMinutes"
  let exQb ← getKey entry "nQuantityBad"
  let exQg ← getKey entry "nQuantityGood"
  let exTm ← getKey entry "nTardyMinutes"
  let exceptions ← TimesheetEntryException.init exBreak exMeal exAdm exAmw exEi exEo
    exEog exLo exLotm exMbp exMp exOp exOt exTy exTyg exUot exUi exUip exUo exUop
    exUp exUnder exUb exAmm exEom exLm exMvm exQb exQg exTm
  let stApproval ← getKey entry "lApprovalStatus"
  let stAudit ← getKey entry "lAudit"
  let stCalcO ← getKey entry "lCalcOverride"
  let stCarry ← getKey entry "lCarryoverExpansionORChanged"
  let stCnc ← getKey entry "lComputeNonCalc"
  let stElapsed ← getKey entry "lElapsedTime"
  let stHlcd ← getKey entry "lHasLstChgDay"
  let stTga ← getKey entry "lIsTGARecord"
  let stPending ← getKey entry "lPending"
  let stPendingCalc ← getKey entry "lPendingCalc"
  let stRo ← getKey entry "lReadOnly"
  let stRef ← getKey entry "lRefTime"
  let stRev ← getKey entry "lReversed"
  let stWpp ← getKey entry "lWithinPP"
  let stApnd ← getKey entry "lAutoPayNoDelete"
  let stAppSt ← getKey entry "nApprovalStatus"
  let stCalc ← getKey entry "nCalculate"
  let stRevSt ← getKey entry "nReverseStatus"
  let stRoReason ← getKey entry "ReadOnlyReasonCodeDescription"
  let status : TimesheetEntryStatus := ⟨stApproval, stAudit, stCalcO, stCarry, stCnc,
    stElapsed, stHlcd, stTga, stPending, stPendingCalc, stRo, stRoReason, stRef,
    stRev, stWpp, stApnd, stAppSt, stCalc, stRevSt⟩
  let schSched ← getKey entry "cSchedule"
  let schPrem ← getKey entry "isSchedulePremium"
  let schPremO ← getKey entry "isSchedulePremiumUserOverride"
  let schHours ← getKey entry "nScheduleHours"
  let schGs ← getKey entry "SchGroupingString"
  let schedule ← Schedule.init schSched schPrem schPremO schHours schGs
  let ntIoe ← getKey entry "cInOutExpression"
  let ntMi ← getKey entry "cMoreInfo"
  let ntNotes ← getKey entry "cNotes"
  let ntRc ← getKey entry "cReasonCode"
  let ntRcol ← getKey entry "cReasonColor"
  let ntId ← getKey entry "iNoteSeq"
  let ntAuthor ← getKey entry "cAuthor"
  let note : TimesheetEntryNote := ⟨ntIoe, ntMi, ntNotes, ntAuthor, ntRc, ntRcol, ntId⟩
  let othop ← getKey entry "OTTotalHoursOnePunch"
  let shift_expression ← getKey entry "cShiftExpression"
  let record_type ← getKey entry "RecordType"
  let adjustment_date ← getKey entry "dAdjustmentDate"
  let reverse_date ← getKey entry "dReverseDate"
  let last_modified ← getKey entry "tLastModified"
  let carryover ← getKey entry "CarryoverExpansionOverride"
  let assign_id ← getKey entry "cAssignID"
  .ok ⟨sheet_sequence, week_group_string, pay_period, work_period, entry_sequence,
       employee, punch_date, work_date, punch_date_time, punch_in, punch_out,
       date_key, work_hours, total_hours, comp_hours, daily_hours,
       daily_total_hours, weekly_hours, weekly_hours_total, overtime_hours,
       comp_overtime_hours, raw_comp_overtime_hours, redirect_overtime_hours,
       pay_code, categories, accessible_group_list, invalid_group_list, grouping,
       grouping_string, group_level, group_code, expected_meal_times, exceptions,
       status, schedule, note, othop, shift_expression, record_type,
       adjustment_date, reverse_date, last_modified, carryover, assign_id,
       .vstr "darkgrey"⟩

/-- The dict that the body of `TimesheetEntry.to_dict` (lines 1192-1271)
assembles: the full raw-shaped record, merging every nested serialization.
Building it dereferences `self.punch_in.adjust` and `self.punch_out`, which
raises `AttributeError` when the adjust attribute was never assigned or the
entry has no out punch. -/
def TimesheetEntry.to_dict_body (e : TimesheetEntry) : Except PyError Dict := do
  let inAdj ← readAttr e.punch_in.adjust
  let pout ← (match e.punch_out with
    | some p => pure p
    | none => throw PyError.attributeError)
  let outAdj ← readAttr pout.adjust
  let base : Dict :=
    [("iTimesheetSeq", e.sheet_sequence),
     ("WeekGroupString", e.week_group_string),
     ("iTimeSeq", e.entry_sequence),
     ("dPunchDate", e.punch_date),
     ("dWorkDate", e.work_date),
     ("tPunchDateTime", e.punch_date_time),
     ("DateKey", e.date_key),
     ("nWorkHours", .vnum ((e.work_hours : ℚ) / 3600000000)),
     ("nTotalHours", .vnum ((e.total_hours : ℚ) / 3600000000)),
     ("nCompHours", .vnum ((e.comp_hours : ℚ) / 3600000000)),
     ("nDailyHours", .vnum ((e.daily_hours : ℚ) / 3600000000)),
     ("nDailyTotalHours", .vnum ((e.daily_total_hours : ℚ) / 3600000000)),
     ("nWeeklyHours", .vnum ((e.weekly_hours : ℚ) / 3600000000)),
     ("nWeeklyTotalHours", .vnum ((e.weekly_hours_total : ℚ) / 3600000000)),
     ("GroupingString", e.grouping_string),
     ("cGroupLevel", e.group_level),
     ("cGroupCode", e.group_code),
     ("OTTotalHoursOnePunch", e.overtime_total_hours_one_punch),
     ("cShiftExpression", e.shift_expression),
     ("RecordType", e.record_type),
     ("dAdjustmentDate", e.adjustment_date),
     ("dReverseDate", e.reverse_date),
     ("tLastModified", e.last_modified),
     ("CarryoverExpansionOverride", e.carryover_expansion_override),
     ("cAssignID", e.assign_id),
     ("dPayPeriodStart", e.pay_period.start),
     ("dPayPeriodEnd", e.pay_period.stop),
     ("dWorkPeriodStartDate", e.work_period.start),
     ("dWorkPeriodEndDate", e.work_period.stop),
     ("iEmployeeSeq", e.employee.employee_seq),
     ("cEmployeeID", e.employee.username),
     ("cEmployeeFirstName", e.employee.first_name),
     ("cEmployeeLastName", e.employee.last_name),
     ("cEmployeeFullName", e.employee.full_name),
     ("dIn", e.punch_in.punch),
     ("nAdjustIn", inAdj),
     ("lInMod", e.punch_in.modified),
     ("cInGPS", e.punch_in.gps),
     ("cSiteIn", e.punch_in.site),
     ("dOGIn", e.punch_in.og),
     ("lInNetChkFail", e.punch_in.net_chk_fail),
     ("cInExpression", e.punch_in.expression),
     ("cInExpressionSave", e.punch_in.expression_save),
     ("nTZIn", e.punch_in.timezone),
     ("mInRecording", e.punch_in.recording),
     ("dOut", pout.punch),
     ("nAdjustOut", outAdj),
     ("lOutMod", pout.modified),
     ("cOutGPS", pout.gps),
     ("cSiteOut", pout.site),
     ("dOGOut", pout.og),
     ("lOutNetChkFail", pout.net_chk_fail),
     ("cOutExpression", pout.expression),
     ("cOutExpressionSave", pout.expression_save),
     ("nTZOut", pout.timezone),
     ("mOutRecording", pout.recording)]
  let d1 := dictUpdate base e.overtime_hours.to_dict
  let d2 := dictUpdate d1 e.comp_overtime_hours.to_dict
  let d3 := dictUpdate d2 e.raw_comp_overtime_hours.to_dict
  let d4 := dictUpdate d3 e.redirect_overtime_hours.to_dict
  let d5 := dictUpdate d4 e.pay_code.to_dict
  let d6 := setKey d5 "GroupValueList"
    (listOrNone (e.categories.map (fun c => .vdict c.to_dict)))
  let d7 := setKey d6 "AccessibleGroupList"
    (listOrNone (e.accessible_group_list.map (fun c => .vdict c.to_dict)))
  let d8 := setKey d7 "InvalidGroupList"
    (listOrNone (e.invalid_group_list.map (fun c => .vdict c.to_dict)))
  let d9 := setKey d8 "Grouping" (.vdict e.grouping.to_dict)
  let d10 := setKey d9 "ExpectedMealTimes"
    (listOrNone (e.expected_meal_times.map
      (fun p => .vdict [("iIndex", p.1), ("tStartTime", p.2.start), ("tEndTime", p.2.stop)])))
  let d11 := dictUpdate d10 e.exceptions.to_dict
  let d12 := dictUpdate d11 e.status.to_dict
  let d13 := dictUpdate d12 e.schedule.to_dict
  let d14 := dictUpdate d13 e.note.to_dict
  .ok d14

/-- `TimesheetEntry.to_dict` (lines 1192-1271): the method assembles the
complete raw-shaped dict but contains no `return` statement, so — like every
Python function that falls off its end — its value is `None` (the assembled
dict is discarded). -/
def TimesheetEntry.to_dict (e : TimesheetEntry) : Except PyError Value :=
  (TimesheetEntry.to_dict_body e).map (fun _ => Value.vnull)

/-- `TimesheetEntry.write_dict` (lines 1273-1307): the narrow vendor write
shape.  Reading `self.punch_out.modified`/`self.punch_out.punch` on an open
punch raises `AttributeError`; the punch date/work date and both punches are
converted to UTC and rendered in `WRITE_ENTRY_FORMAT`. -/
def TimesheetEntry.write_dict (e : TimesheetEntry) : Except PyError Dict := do
  let pout ← (match e.punch_out with
    | some p => pure p
    | none => throw PyError.attributeError)
  let dPunchDate ← toUtcWriteValue e.punch_date
  let dWorkDate ← toUtcWriteValue e.work_date
  let dIn ← toUtcWriteValue e.punch_in.punch
  let dOut ← toUtcWriteValue pout.punch
  let gvl ← (e.categories.take 4).mapM EntryCategory.write_dict
  .ok (dictUpdate
    (setKey
      [("iTimeSeq", e.entry_sequence),
       ("iEmployeeSeq", e.employee.employee_seq),
       ("copyColor", e.copy_color),
       ("lUnauthorizedOT", e.exceptions.unauthorized_ot),
       ("lCalcOverride", e.status.calc_override),
       ("iTimesheetSeq", e.sheet_sequence),
       ("cIn_Mod", pyOr e.punch_in.modified (.vstr "")),
       ("cOut_Mod", pyOr pout.modified (.vstr "")),
       ("isUnEditable", .vbool false),
       ("payCodeDisplayText", .vstr ""),
       ("dPunchDate", dPunchDate),
       ("dWorkDate", dWorkDate),
       ("nPayCode", e.pay_code.code),
       ("nCodeType", e.pay_code.code_type),
       ("nCalculate", e.status.calculate),
       ("lRefTime", e.status.ref_time),
       ("lChanged", .vbool true),
       ("dIn", dIn),
       ("dOut", dOut)]
      "GroupValueList" (listOrNone (gvl.map (fun d => .vdict d))))
    [("focusGroup", .vnum 0),
     ("cNotes", e.note.notes),
     ("lHasError", .vbool false),
     ("lAllowOverlapHours", .vbool false),
     ("isPAPaycode", .vbool false),
     ("lOverlappingTime", .vbool false),
     ("lPendingCalc", .vbool true)])

/-! ## Timesheet (src/novatime.py lines 1766-1878)

`arrow.now()` — the only ambient input of `get_times`/`is_this_week`/
`predict_clock_out` — is passed explicitly as `now`. -/

/-- The state `get_times` populates: entries keyed by punch date (in first-seen
order, one date to many entries) and the three accumulated hour totals. -/
structure TimesheetState where
  entries : List (Value × List TimesheetEntry)
  hours : HourTotals

/-- `entry.punch_date in self.entries`. -/
def entriesContains (m : List (Value × List TimesheetEntry)) (k : Value) : Bool :=
  m.any (fun p => keyEq p.1 k)

/-- `self.entries[k].append(e)`; the caller has just ensured the key exists. -/
def entriesAppendAt (m : List (Value × List TimesheetEntry)) (k : Value)
    (e : TimesheetEntry) : List (Value × List TimesheetEntry) :=
  match m with
  | [] => []
  | (k', l) :: rest =>
    if keyEq k' k then (k', l ++ [e]) :: rest else (k', l) :: entriesAppendAt rest k e

/-- `Timesheet.is_this_week` (lines 1836-1840): `this_sunday` is now shifted
forward to Sunday and floored to midnight, `last_sunday` is one week earlier,
and the date must lie in the half-open interval `[last_sunday, this_sunday)`. -/
def is_this_week (now : Arrow) (date : Arrow) : Bool :=
  let this_sunday := now.shiftToSunday.floorDay
  let last_sunday := (this_sunday.addDays (-7)).floorDay
  absLe last_sunday date && absLt date this_sunday

/-- The body of the `Timesheet.get_times` loop (lines 1824-1834), one raw
record at a time: construct the entry, append it under its punch date, and
add its `daily_total_hours` to this week's or last week's bucket and to the
total.  `is_between` on a non-instant punch date raises. -/
def get_times_from (now : Arrow) : List Dict → TimesheetState → Except PyError TimesheetState
  | [], st => .ok st
  | raw :: rest, st => do
    let entry ← TimesheetEntry.init raw
    let m1 := if entriesContains st.entries entry.punch_date
      then st.entries
      else st.entries ++ [(entry.punch_date, [])]
    let m2 := entriesAppendAt m1 entry.punch_date entry
    let pd ← (match entry.punch_date with
      | .varrow a => pure a
      | _ => throw PyError.attributeError)
    let hours : HourTotals := if is_this_week now pd
      then ⟨st.hours.last_week, st.hours.this_week + entry.daily_total_hours,
            st.hours.total + entry.daily_total_hours⟩
      else ⟨st.hours.last_week + entry.daily_total_hours, st.hours.this_week,
            st.hours.total + entry.daily_total_hours⟩
    get_times_from now rest ⟨m2, hours⟩

/-- `Timesheet.get_times` (lines 1816-1834): reset `entries` and `hours`, then
fold the raw record list. -/
def get_times (now : Arrow) (raw_timesheet : List Dict) : Except PyError TimesheetState :=
  get_times_from now raw_timesheet ⟨[], ⟨0, 0, 0⟩⟩

/-- The lookup loop opening `predict_clock_out` (lines 1856-1861): the first
entry list whose date key equals today (midnight of `now`). -/
def lookupToday (today : Arrow) : List (Value × List TimesheetEntry) →
    Option (List TimesheetEntry)
  | [] => none
  | (k, l) :: rest => if keyEq k (.varrow today) then some l else lookupToday today rest

/-- The entry loop of `predict_clock_out` (lines 1866-1877): every iteration
overwrites `clock_in` with the entry's in punch, and `clock_out` with
`clock_in + remaining` (plus the auto-meal offset when more than eight hours
remain) under a missing-punch exception, or `None` otherwise; the values of
the last iteration survive. -/
def predictLoop (remaining : Timedelta) (acc : Value × Value) :
    List TimesheetEntry → Except PyError (Value × Value)
  | [] => .ok acc
  | e :: rest =>
    if truthy e.exceptions.missing_punch then
      match e.punch_in.punch with
      | .varrow p =>
        predictLoop remaining
          (e.punch_in.punch,
           .varrow (if remaining > 8 * microsPerHour
             then (p.addDelta remaining).addDelta e.exceptions.auto_meal_minutes
             else p.addDelta remaining))
          rest
      | _ => .error .typeError
    else predictLoop remaining (e.punch_in.punch, .vnull) rest

/-- `Timesheet.predict_clock_out` (lines 1842-1878).  No entry list for today
returns `(None, None)`; an (impossible through `get_times`) empty list for
today would leave `clock_in` unassigned and raise `NameError` at the return. -/
def predict_clock_out (now : Arrow) (entries : List (Value × List TimesheetEntry))
    (remaining : Timedelta) : Except PyError (Value × Value) :=
  match lookupToday now.floorDay entries with
  | none => .ok (.vnull, .vnull)
  | some l =>
    match l with
    | [] => .error .nameError
    | _ => predictLoop remaining (.vnull, .vnull) l

/-! ## EntryCategoryGroup and the paged group-option fetch
(src/novatime.py lines 288-382 and 1656-1728)

The shelve file backing an `EntryCategoryGroup` is modelled as an explicit
insertion-ordered association list, passed in and returned. -/

/-- One overwrite warning of `EntryCategoryGroup.update` (lines 331-333): the
log line names the key being overwritten and renders the old and the new
category. -/
structure UpdateWarning where
  key : Value
  old : EntryCategory
  new : EntryCategory

/-- Lookup in the shelve-backed options map (Python dict-key equality). -/
def ecLookup (m : List (Value × EntryCategory)) (k : Value) : Option EntryCategory :=
  match m with
  | [] => none
  | (k', c) :: rest => if keyEq k' k then some c else ecLookup rest k

/-- Store into the options map, overwriting in place. -/
def ecSet (m : List (Value × EntryCategory)) (k : Value) (c : EntryCategory) :
    List (Value × EntryCategory) :=
  match m with
  | [] => [(k, c)]
  | (k', c') :: rest => if keyEq k' k then (k, c) :: rest else (k', c') :: ecSet rest k c

/-- `EntryCategoryGroup.update` (lines 325-334): each option is stored under
`option.value` (the category's `cGroupValue` display value — not its
`group_seq`), with a warning whenever that key is already present. -/
def EntryCategoryGroup.update (m : List (Value × EntryCategory))
    (opts : List EntryCategory) : List (Value × EntryCategory) × List UpdateWarning :=
  match opts with
  | [] => (m, [])
  | o :: rest =>
    let ws : List UpdateWarning := match ecLookup m o.value with
      | some old => [⟨o.value, old, o⟩]
      | none => []
    let r := EntryCategoryGroup.update (ecSet m o.value o) rest
    (r.1, ws ++ r.2)

/-- One page response of `Group/GetPagedGroups` as `get_group_options` reads
it: `_errorCode`, `_errorDescription`, `Data.ItemTotal` and `Data.PagedList`. -/
structure PageResp where
  errorCode : ℚ
  errorDescription : String
  itemTotal : Nat
  pagedList : List Value

/-- The loop state of `get_group_options` (lines 1697-1727): the shelve-backed
options map, the accumulated warnings, the `page` counter, and the rich
progress-bar task (completed count `advanced`, total set from page 1). -/
structure FetchState where
  options : List (Value × EntryCategory)
  warnings : List UpdateWarning
  page : Nat
  advanced : Nat
  total : Option Nat

/-- `progress.finished` for the single task: false while no total has been
set, otherwise whether the advanced count has reached the total. -/
def progressFinished (st : FetchState) : Bool :=
  match st.total with
  | some t => decide (t ≤ st.advanced)
  | none => false

/-- The `while not progress.finished` loop of `get_group_options`
(lines 1700-1726), against an arbitrary server (`pages`, mapping a page
number to its response) and bounded by fuel; `.ok none` means the fuel ran
out with the loop still running.  Per iteration: a non-1 error code fails the
fetch; a cached count equal to the page's `ItemTotal` breaks out; otherwise
the progress total is set on page 1, the bar advances by the page's length,
the page's categories are merged by `update`, and the page counter advances
only while the stored count is below `ItemTotal`. -/
def fetchLoop (pages : Nat → PageResp) : Nat → FetchState → Except PyError (Option FetchState)
  | 0, _ => .ok none
  | fuel + 1, st =>
    if progressFinished st then .ok (some st)
    else
      if (pages st.page).errorCode ≠ 1 then .error .valueError
      else if st.options.length = (pages st.page).itemTotal then .ok (some st)
      else do
        let opts ← (pages st.page).pagedList.mapM EntryCategory.init
        fetchLoop pages fuel
          ⟨(EntryCategoryGroup.update st.options opts).1,
           st.warnings ++ (EntryCategoryGroup.update st.options opts).2,
           (if (EntryCategoryGroup.update st.options opts).1.length < (pages st.page).itemTotal
            then st.page + 1 else st.page),
           st.advanced + (pages st.page).pagedList.length,
           (if st.page = 1 then some (pages st.page).itemTotal else st.total)⟩

/-- The initial loop state of a fresh fetch: empty cache, page 1, bar at zero
with no total yet. -/
def fetchInit : FetchState := ⟨[], [], 1, 0, none⟩

/-! ## Concrete raw records for witnesses and counterexamples -/

/-- A raw category dict as `Group/GetPagedGroups` or `GroupValueList` carries
it, with the display value, description and group sequence varying. -/
def rawCategory (v : Value) (desc : String) (seq : Value) : Dict :=
  [("cDescription", Value.vstr desc),
   ("cGroupCode", Value.vstr "JOB"),
   ("cGroupColor", Value.vstr ""),
   ("cGroupValue", v),
   ("cGroupValueDescription", Value.vstr desc),
   ("iGroupNumber", Value.vnum 1),
   ("iGroupUserType", Value.vnum 0),
   ("iGroupValueSeq", seq),
   ("lClosed", Value.vbool false),
   ("nGPSLatitude", Value.vnull),
   ("nGPSLongitude", Value.vnull)]

/-- The variable parts of a sample raw timesheet record. -/
structure RawParams where
  punchDate : String
  timeIn : String
  timeOut : Value
  missingPunch : Value
  autoMealMinutes : Value
  dailyTotalHours : Value
  hasWorkHours : Bool

/-- A complete raw flat timesheet record in the vendor shape the constructor
expects, with every key it reads; `nWorkHours` is omitted when
`hasWorkHours` is false. -/
def rawEntry (p : RawParams) : Dict :=
  [("iTimesheetSeq", Value.vnum 12345),
   ("WeekGroupString", Value.vstr "wk"),
   ("dPayPeriodStart", Value.vstr "06/12/2022 00:00:00"),
   ("dPayPeriodEnd", Value.vstr "06/25/2022 00:00:00"),
   ("dWorkPeriodStartDate", Value.vstr "06/19/2022 00:00:00"),
   ("dWorkPeriodEndDate", Value.vstr "06/25/2022 00:00:00"),
   ("iTimeSeq", Value.vnum 1),
   ("iEmployeeSeq", Value.vnum 777),
   ("cEmployeeID", Value.vstr "E1"),
   ("cEmployeeFirstName", Value.vstr "Ada"),
   ("cEmployeeLastName", Value.vstr "Byron"),
   ("cEmployeeFullName", Value.vstr "Ada Byron"),
   ("dPunchDate", Value.vstr p.punchDate),
   ("dWorkDate", Value.vstr p.punchDate),
   ("tPunchDateTime", Value.vstr p.timeIn),
   ("dIn", Value.vstr p.timeIn),
   ("nAdjustIn", Value.vstr "09:00AM"),
   ("lInMod", Value.vbool false),
   ("cInGPS", Value.vstr ""),
   ("cSiteIn", Value.vstr ""),
   ("dOGIn", Value.vstr p.timeIn),
   ("lInNetChkFail", Value.vbool false),
   ("cInExpression", Value.vstr ""),
   ("cInExpressionSave", Value.vstr ""),
   ("nTZIn", Value.vnum (-300)),
   ("mInRecording", Value.vnull),
   ("dOut", p.timeOut),
   ("nAdjustOut", Value.vstr "05:00PM"),
   ("lOutMod", Value.vbool false),
   ("cOutGPS", Value.vstr ""),
   ("cSiteOut", Value.vstr ""),
   ("dOGOut", p.timeOut),
   ("lOutNetChkFail", Value.vbool false),
   ("cOutExpression", Value.vstr ""),
   ("cOutExpressionSave", Value.vstr ""),
   ("nTZOut", Value.vnum (-300)),
   ("mOutRecording", Value.vnull),
   ("DateKey", Value.vstr "06/22")] ++
  (if p.hasWorkHours then [("nWorkHours", Value.vnum 8)] else []) ++
  [("nTotalHours", Value.vnum 8),
   ("nCompHours", Value.vnum 0),
   ("nDailyHours", Value.vnum 8),
   ("nDailyTotalHours", p.dailyTotalHours),
   ("nWeeklyHours", Value.vnum 8),
   ("nWeeklyTotalHours", Value.vnum 8),
   ("nOT1Hours", Value.vnum 0),
   ("nOT2Hours", Value.vnum 0),
   ("nOT3Hours", Value.vnum 0),
   ("nOT4Hours", Value.vnum 0),
   ("nOT5Hours", Value.vnum 0),
   ("nCompOT1Hours", Value.vnum 0),
   ("nCompOT2Hours", Value.vnum 0),
   ("nCompOT3Hours", Value.vnum 0),
   ("nCompOT4Hours", Value.vnum 0),
   ("nCompOT5Hours", Value.vnum 0),
   ("nRawCompOT1Hours", Value.vnum 0),
   ("nRawCompOT2Hours", Value.vnum 0),
   ("nRawCompOT3Hours", Value.vnum 0),
   ("nRawCompOT4Hours", Value.vnum 0),
   ("nRawCompOT5Hours", Value.vnum 0),
   ("nRedirectOT1Hours", Value.vnum 0),
   ("nRedirectOT2Hours", Value.vnum 0),
   ("nRedirectOT3Hours", Value.vnum 0),
   ("nRedirectOT4Hours", Value.vnum 0),
   ("nRedirectOT5Hours", Value.vnum 0),
   ("nPayCode", Value.vnum 1),
   ("cExpCode", Value.vstr "REG"),
   ("nCodeType", Value.vnum 1),
   ("lPayCodeReadOnly", Value.vbool false),
   ("cPayType", Value.vstr "R"),
   ("nPayPolicy", Value.vnum 0),
   ("cPayPolicyDescription", Value.vstr ""),
   ("nPayRate", Value.vnum 0),
   ("cPayCodeDescription", Value.vstr "Regular"),
   ("lShowSchedulePayCode", Value.vbool false),
   ("lNonComputeCalcPayCode", Value.vbool false),
   ("nOT1Pay", Value.vnum 0),
   ("nOT2Pay", Value.vnum 0),
   ("nOT3Pay", Value.vnum 0),
   ("nOT4Pay", Value.vnum 0),
   ("nOT5Pay", Value.vnum 0),
   ("nPayAmount", Value.vnum 0),
   ("nPremiumPay", Value.vnum 0),
   ("nRegPay", Value.vnum 8),
   ("nTotalPay", Value.vnum 8),
   ("GroupValueList", Value.vlist [Value.vdict (rawCategory (Value.vstr "100") "Job A" (Value.vnum 55))]),
   ("AccessibleGroupList", Value.vnull),
   ("InvalidGroupList", Value.vnull),
   ("Grouping", Value.vdict (rawCategory (Value.vstr "100") "Job A" (Value.vnum 55))),
   ("GroupingString", Value.vstr ""),
   ("cGroupLevel", Value.vstr ""),
   ("cGroupCode", Value.vstr ""),
   ("ExpectedMealTimes", Value.vnull),
   ("cBreakException", Value.vstr ""),
   ("cMealException", Value.vstr ""),
   ("lAutoDeductMealException", Value.vbool false),
   ("lAutoMealWaivedException", Value.vbool false),
   ("lEarlyInException", Value.vbool false),
   ("lEarlyOutException", Value.vbool false),
   ("lEarlyOutGraceException", Value.vbool false),
   ("lLateOutException", Value.vbool false),
   ("lLateOutToMealException", Value.vbool false),
   ("lMealBreakPremiumException", Value.vbool false),
   ("lMissingPunchException", p.missingPunch),
   ("lOverPayException", Value.vbool false),
   ("lOvertimeException", Value.vbool false),
   ("lTardyException", Value.vbool false),
   ("lTardyGraceException", Value.vbool false),
   ("lUnauthorizedOT", Value.vbool false),
   ("lUnconfirmedInException", Value.vbool false),
   ("lUnconfirmedInPunch", Value.vbool false),
   ("lUnconfirmedOutException", Value.vbool false),
   ("lUnconfirmedOutPunch", Value.vbool false),
   ("lUnconfirmedPunchException", Value.vbool false),
   ("lUnderPayException", Value.vbool false),
   ("lUnpaidBreakException", Value.vbool false),
   ("nAutoMealMinutes", p.autoMealMinutes),
   ("nEarlyOutMinutes", Value.vnum 0),
   ("nLongMeal", Value.vnum 0),
   ("nMealValMinutes", Value.vnum 0),
   ("nQuantityBad", Value.vnum 0),
   ("nQuantityGood", Value.vnum 0),
   ("nTardyMinutes", Value.vnum 0),
   ("lApprovalStatus", Value.vbool false),
   ("lAudit", Value.vbool false),
   ("lCalcOverride", Value.vbool false),
   ("lCarryoverExpansionORChanged", Value.vbool false),
   ("lComputeNonCalc", Value.vbool false),
   ("lElapsedTime", Value.vbool false),
   ("lHasLstChgDay", Value.vbool false),
   ("lIsTGARecord", Value.vbool false),
   ("lPending", Value.vbool false),
   ("lPendingCalc", Value.vbool false),
   ("lReadOnly", Value.vbool false),
   ("lRefTime", Value.vbool false),
   ("lReversed", Value.vbool false),
   ("lWithinPP", Value.vbool true),
   ("lAutoPayNoDelete", Value.vbool false),
   ("nApprovalStatus", Value.vnum 0),
   ("nCalculate", Value.vnum 0),
   ("nReverseStatus", Value.vnum 0),
   ("ReadOnlyReasonCodeDescription", Value.vstr ""),
   ("cSchedule", Value.vstr ""),
   ("isSchedulePremium", Value.vnum 0),
   ("isSchedulePremiumUserOverride", Value.vnum 0),
   ("nScheduleHours", Value.vnum 8),
   ("SchGroupingString", Value.vstr ""),
   ("cInOutExpression", Value.vstr ""),
   ("cMoreInfo", Value.vstr ""),
   ("cNotes", Value.vstr ""),
   ("cReasonCode", Value.vstr ""),
   ("cReasonColor", Value.vstr ""),
   ("iNoteSeq", Value.vnum 0),
   ("cAuthor", Value.vstr ""),
   ("OTTotalHoursOnePunch", Value.vnull),
   ("cShiftExpression", Value.vstr ""),
   ("RecordType", Value.vnum 0),
   ("dAdjustmentDate", Value.vnull),
   ("dReverseDate", Value.vnull),
   ("tLastModified", Value.vstr "06/22/2022 17:00:00"),
   ("CarryoverExpansionOverride", Value.vnull),
   ("cAssignID", Value.vstr "")]

/-- A complete record with a closed punch pair (in 09:00, out 17:00) dated
Wednesday 2022-06-22. -/
def rawClosed : Dict :=
  rawEntry ⟨"06/22/2022 00:00:00", "06/22/2022 09:00:00",
            Value.vstr "06/22/2022 17:00:00", Value.vbool false, Value.vnum 30,
            Value.vnum 8, true⟩

/-- The same record with a null `dOut` and the missing-punch exception set:
an open punch, still clocked in. -/
def rawOpen : Dict :=
  rawEntry ⟨"06/22/2022 00:00:00", "06/22/2022 09:00:00",
            Value.vnull, Value.vbool true, Value.vnum 30, Value.vnum 8, true⟩

/-- The closed record dated Sunday 2022-06-26 (the Sunday following
Wednesday 2022-06-22). -/
def rawSunday : Dict :=
  rawEntry ⟨"06/26/2022 00:00:00", "06/26/2022 09:00:00",
            Value.vstr "06/26/2022 17:00:00", Value.vbool false, Value.vnum 30,
            Value.vnum 8, true⟩

/-- The closed record with `nWorkHours` omitted. -/
def rawNoWorkHours : Dict :=
  rawEntry ⟨"06/22/2022 00:00:00", "06/22/2022 09:00:00",
            Value.vstr "06/22/2022 17:00:00", Value.vbool false, Value.vnum 30,
            Value.vnum 8, false⟩

/-- A fixed "now": Wednesday 2022-06-22, 12:00 Detroit wall clock. -/
def nowWed : Arrow :=
  ⟨(daysFromCivil 2022 6 22 * 86400 + 43200) * microsPerSecond, .detroit⟩

/-- Placeholder entry used only to destructure `Except` results of the
constructor in closed witness statements (never reachable there). -/
def dummyEntry : TimesheetEntry where
  sheet_sequence := Value.vnull
  week_group_string := Value.vnull
  pay_period := ⟨Value.vnull, Value.vnull⟩
  work_period := ⟨Value.vnull, Value.vnull⟩
  entry_sequence := Value.vnull
  employee := ⟨Value.vnull, Value.vnull, Value.vnull, Value.vnull, Value.vnull,
               Value.vnull, Value.vnull, Value.vnull⟩
  punch_date := Value.vnull
  work_date := Value.vnull
  punch_date_time := Value.vnull
  punch_in := ⟨Value.vnull, none, Value.vnull, Value.vnull, Value.vnull, Value.vnull,
               Value.vnull, Value.vnull, Value.vnull, Value.vnull, Value.vnull⟩
  punch_out := none
  date_key := Value.vnull
  work_hours := 0
  total_hours := 0
  comp_hours := 0
  daily_hours := 0
  daily_total_hours := 0
  weekly_hours := 0
  weekly_hours_total := 0
  overtime_hours := ⟨0, 0, 0, 0, 0, ""⟩
  comp_overtime_hours := ⟨0, 0, 0, 0, 0, "Comp"⟩
  raw_comp_overtime_hours := ⟨0, 0, 0, 0, 0, "RawComp"⟩
  redirect_overtime_hours := ⟨0, 0, 0, 0, 0, "Redirect"⟩
  pay_code := ⟨Value.vnull, Value.vnull, Value.vnull, Value.vnull, Value.vnull,
               Value.vnull, Value.vnull, Value.vnull, Value.vnull, Value.vnull,
               Value.vnull, Value.vnull, Value.vnull, Value.vnull, Value.vnull,
               Value.vnull, Value.vnull, Value.vnull, Value.vnull, Value.vnull⟩
  categories := []
  accessible_group_list := []
  invalid_group_list := []
  grouping := ⟨Value.vnull, Value.vnull, Value.vnull, Value.vnull, Value.vnull,
               Value.vnull, ⟨Value.vnull, Value.vnull⟩, Value.vnull, Value.vnull,
               Value.vnull⟩
  grouping_string := Value.vnull
  group_level := Value.vnull
  group_code := Value.vnull
  expected_meal_times := []
  exceptions := ⟨Value.vnull, Value.vnull, Value.vnull, Value.vnull, Value.vnull,
                 Value.vnull, Value.vnull, Value.vnull, Value.vnull, Value.vnull,
                 Value.vnull, Value.vnull, Value.vnull, Value.vnull, Value.vnull,
                 Value.vnull, Value.vnull, Value.vnull, Value.vnull, Value.vnull,
                 Value.vnull, Value.vnull, Value.vnull, 0, 0, Value.vnull, 0,
                 Value.vnull, Value.vnull, 0⟩
  status := ⟨Value.vnull, Value.vnull, Value.vnull, Value.vnull, Value.vnull,
             Value.vnull, Value.vnull, Value.vnull, Value.vnull, Value.vnull,
             Value.vnull, Value.vnull, Value.vnull, Value.vnull, Value.vnull,
             Value.vnull, Value.vnull, Value.vnull, Value.vnull⟩
  schedule := ⟨Value.vnull, Value.vnull, Value.vnull, 0, Value.vnull⟩
  note := ⟨Value.vnull, Value.vnull, Value.vnull, Value.vnull, Value.vnull,
           Value.vnull, Value.vnull⟩
  overtime_total_hours_one_punch := Value.vnull
  shift_expression := Value.vnull
  record_type := Value.vnull
  adjustment_date := Value.vnull
  reverse_date := Value.vnull
  last_modified := Value.vnull
  carryover_expansion_override := Value.vnull
  assign_id := Value.vnull
  copy_color := Value.vnull

/-- The constructed closed entry. -/
def entryClosed : TimesheetEntry :=
  match TimesheetEntry.init rawClosed with
  | .ok e => e
  | .error _ => dummyEntry

/-- The constructed open entry. -/
def entryOpen : TimesheetEntry :=
  match TimesheetEntry.init rawOpen with
  | .ok e => e
  | .error _ => dummyEntry


/-! ## Generic helper lemmas -/

/-- Eliminate a successful `Except` bind into its two stages. -/
theorem bind_ok_elim {ε α β : Type} {x : Except ε α} {f : α → Except ε β} {b : β}
    (h : x >>= f = .ok b) : ∃ a, x = .ok a ∧ f a = .ok b := by
  cases x with
  | ok a => exact ⟨a, rfl, h⟩
  | error e => exact absurd h (by simp [Bind.bind, Except.bind])

/-- Every zone offset lies in [-18000000000, 0] microseconds. -/
theorem zoneOffset_bounds (z : Zone) (w : Int) :
    -18000000000 ≤ zoneOffset z w ∧ zoneOffset z w ≤ 0 := by
  cases z with
  | utc => simp [zoneOffset]
  | detroit =>
    simp only [zoneOffset]
    split <;> norm_num

/-- A wall-clock gap of at least a day forces the absolute order, whatever
the zones' offsets do. -/
theorem absSeconds_lt_of_wall_gap (a b : Arrow) (h : a.wall + microsPerDay ≤ b.wall) :
    absSeconds a < absSeconds b := by
  have ha := zoneOffset_bounds a.zone a.wall
  have hb := zoneOffset_bounds b.zone b.wall
  simp only [absSeconds, microsPerDay] at *
  linarith [ha.1, ha.2, hb.1, hb.2]

/-! ## Claim theorems -/

/-- C9: `parse_punch` is idempotent — whenever a value parses successfully,
feeding the result back through `parse_punch` returns it unchanged, and an
already-parsed instant passes through untouched (src/novatime.py lines
52-56: only strings enter the parsing branch). -/
theorem c9_parse_punch_idempotent :
    (∀ x r, parse_punch x = .ok r → parse_punch r = .ok r) ∧
    (∀ a : Arrow, parse_punch (.varrow a) = .ok (.varrow a)) := by
  refine ⟨?_, fun a => rfl⟩
  intro x r h
  cases x with
  | vstr s =>
    simp only [parse_punch] at h
    cases hp : parsePunchFormat s with
    | ok a => rw [hp] at h; simp only [Except.map] at h; injection h with h2; rw [← h2]; rfl
    | error e => rw [hp] at h; simp only [Except.map] at h; cases h
  | vnull => simp only [parse_punch] at h; injection h with h2; rw [← h2]; rfl
  | vbool b => simp only [parse_punch] at h; injection h with h2; rw [← h2]; rfl
  | vnum q => simp only [parse_punch] at h; injection h with h2; rw [← h2]; rfl
  | varrow a => simp only [parse_punch] at h; injection h with h2; rw [← h2]; rfl
  | vlist l => simp only [parse_punch] at h; injection h with h2; rw [← h2]; rfl
  | vdict d => simp only [parse_punch] at h; injection h with h2; rw [← h2]; rfl

/-- The instant 2022-06-20 08:30:00 in Detroit. -/
def arrowJune20 : Arrow :=
  ⟨(daysFromCivil 2022 6 20 * 86400 + 30600) * microsPerSecond, .detroit⟩

/-- C9 witness: idempotence evaluated on the concrete vendor punch string
"06/20/2022 08:30:00". -/
theorem c9_parse_punch_idempotent_witness :
    parse_punch (.vstr "06/20/2022 08:30:00") = .ok (.varrow arrowJune20) ∧
    parse_punch (.varrow arrowJune20) = .ok (.varrow arrowJune20) :=
  ⟨rfl, c9_parse_punch_idempotent.1 (.vstr "06/20/2022 08:30:00") (.varrow arrowJune20) rfl⟩

/-- The `get_times` fold preserves `this_week + last_week = total` because
each record's `daily_total_hours` is added to exactly one week bucket and to
the total (src/novatime.py lines 1830-1834). -/
theorem get_times_from_inv (now : Arrow) :
    ∀ (raws : List Dict) (st st' : TimesheetState),
      st.hours.this_week + st.hours.last_week = st.hours.total →
      get_times_from now raws st = .ok st' →
      st'.hours.this_week + st'.hours.last_week = st'.hours.total := by
  intro raws
  induction raws with
  | nil =>
    intro st st' hinv h
    simp only [get_times_from] at h
    injection h with h2
    rw [← h2]; exact hinv
  | cons raw rest ih =>
    intro st st' hinv h
    simp only [get_times_from] at h
    obtain ⟨entry, _, h⟩ := bind_ok_elim h
    obtain ⟨pd, _, h⟩ := bind_ok_elim h
    refine ih _ st' ?_ h
    dsimp only
    split <;> dsimp only <;> linarith [hinv]

/-- C10: after any successful `Timesheet.get_times` run, the accumulated
totals satisfy `this_week + last_week = total` (src/novatime.py lines
1816-1834). -/
theorem c10_hours_partition :
    ∀ (now : Arrow) (raws : List Dict) (st : TimesheetState),
      get_times now raws = .ok st →
      st.hours.this_week + st.hours.last_week = st.hours.total := by
  intro now raws st h
  exact get_times_from_inv now raws ⟨[], ⟨0, 0, 0⟩⟩ st (by norm_num) h

/-- The state produced by parsing the closed sample record on the fixed
Wednesday. -/
def stClosed : TimesheetState :=
  match get_times nowWed [rawClosed] with
  | .ok st => st
  | .error _ => ⟨[], ⟨0, 0, 0⟩⟩

/-- C10 witness: the invariant evaluated on the concrete one-record parse. -/
theorem c10_hours_partition_witness :
    get_times nowWed [rawClosed] = .ok stClosed ∧
    stClosed.hours.this_week + stClosed.hours.last_week = stClosed.hours.total :=
  ⟨rfl, c10_hours_partition nowWed [rawClosed] stClosed rfl⟩

/-- C1: the claim says `to_dict()` yields a dict reproducing every raw field;
the code's `to_dict` (src/novatime.py lines 1192-1271) assembles that dict
but has no `return` statement, so it returns `None` for every entry — here
evaluated on a complete, well-formed record: construction succeeds and
`to_dict` produces `Value.vnull` (Python `None`), which is no
`Value.vdict` at all, so no field of the record is reproduced. -/
theorem c1_to_dict_returns_none :
    (TimesheetEntry.init rawClosed).bind TimesheetEntry.to_dict = .ok Value.vnull :=
  rfl

/-- C2 counterexample: the claim expects a custom `MissingFieldError`; the
source defines no such class, and a record omitting `nWorkHours` makes the
constructor raise the builtin `KeyError` for that key (the bare
`entry["nWorkHours"]` subscript at src/novatime.py line 1018). -/
theorem c2_counterexample :
    TimesheetEntry.init rawNoWorkHours = .error (.keyError "nWorkHours") ∧
    PyError.keyError "nWorkHours" ≠ PyError.missingFieldError "nWorkHours" :=
  ⟨rfl, fun h => PyError.noConfusion h⟩

/-- C2 amended: constructing a `TimesheetEntry` from a record that contains
every vendor key the constructor reads before `nWorkHours` (here with
arbitrary missing-punch, auto-meal and daily-total values) but omits
`nWorkHours` fails with Python's builtin `KeyError` naming that key — not
with a `MissingFieldError`, which the code never defines. -/
theorem c2_keyerror_names_key :
    ∀ (mp amm dth : Value),
      TimesheetEntry.init (rawEntry ⟨"06/22/2022 00:00:00", "06/22/2022 09:00:00",
        Value.vstr "06/22/2022 17:00:00", mp, amm, dth, false⟩) =
      .error (.keyError "nWorkHours") := by
  intro mp amm dth
  rfl

/-- C2 amended-claim witness: the key-naming theorem evaluated at concrete
flag and numeric values. -/
theorem c2_keyerror_names_key_witness :
    TimesheetEntry.init (rawEntry ⟨"06/22/2022 00:00:00", "06/22/2022 09:00:00",
      Value.vstr "06/22/2022 17:00:00", Value.vbool false, Value.vnum 30,
      Value.vnum 8, false⟩) = .error (.keyError "nWorkHours") :=
  c2_keyerror_names_key (Value.vbool false) (Value.vnum 30) (Value.vnum 8)

/-- C3 counterexample: the raw record with a null `dOut` constructs an entry
with no `punch_out` (the data model does permit the open punch), but then
`to_dict` raises `AttributeError` instead of serializing the out fields as
null, and `write_dict` raises the same bare `AttributeError` rather than
omitting the punch or failing with a clear error. -/
theorem c3_counterexample :
    TimesheetEntry.init rawOpen = .ok entryOpen ∧
    entryOpen.punch_out = none ∧
    TimesheetEntry.to_dict entryOpen = .error .attributeError ∧
    TimesheetEntry.write_dict entryOpen = .error .attributeError :=
  ⟨rfl, rfl, rfl, rfl⟩

/-- C3 amended: for every entry with no `punch_out`, both `to_dict` and
`write_dict` fail with the generic `AttributeError` that dereferencing
`None` produces (src/novatime.py lines 1239-1249 and 1282/1294). -/
theorem c3_open_punch_raises :
    ∀ e : TimesheetEntry, e.punch_out = none →
      TimesheetEntry.to_dict e = .error .attributeError ∧
      TimesheetEntry.write_dict e = .error .attributeError := by
  intro e h
  constructor
  · unfold TimesheetEntry.to_dict TimesheetEntry.to_dict_body
    cases hadj : e.punch_in.adjust with
    | none => rfl
    | some v => rw [h]; rfl
  · unfold TimesheetEntry.write_dict
    rw [h]
    rfl

/-- C3 witness: the amended statement applied to the concrete open entry. -/
theorem c3_open_punch_raises_witness :
    entryOpen.punch_out = none ∧
    (TimesheetEntry.to_dict entryOpen = .error .attributeError ∧
     TimesheetEntry.write_dict entryOpen = .error .attributeError) :=
  ⟨rfl, c3_open_punch_raises entryOpen rfl⟩

/-- The exact insertion-ordered key set `TimesheetEntry.write_dict` emits
(src/novatime.py lines 1274-1306). -/
def writeDictKeys : List String :=
  ["iTimeSeq", "iEmployeeSeq", "copyColor", "lUnauthorizedOT", "lCalcOverride",
   "iTimesheetSeq", "cIn_Mod", "cOut_Mod", "isUnEditable", "payCodeDisplayText",
   "dPunchDate", "dWorkDate", "nPayCode", "nCodeType", "nCalculate", "lRefTime",
   "lChanged", "dIn", "dOut", "GroupValueList", "focusGroup", "cNotes",
   "lHasError", "lAllowOverlapHours", "isPAPaycode", "lOverlappingTime",
   "lPendingCalc"]

/-- Vendor-computed read-only totals of the read model (pay totals and hour
totals) that the write shape must never leak. -/
def readOnlyTotalsKeys : List String :=
  ["nOT1Pay", "nOT2Pay", "nOT3Pay", "nOT4Pay", "nOT5Pay", "nPayAmount",
   "nPremiumPay", "nRegPay", "nTotalPay", "nWorkHours", "nTotalHours",
   "nDailyHours", "nDailyTotalHours", "nWeeklyHours", "nWeeklyTotalHours"]

/-- A successful UTC write-format conversion forces a parsed instant and
fixes the rendered string. -/
theorem toUtcWriteValue_ok {v r : Value} (h : toUtcWriteValue v = .ok r) :
    ∃ a, v = .varrow a ∧ r = .vstr (formatWrite a.toUtc) := by
  cases v with
  | varrow a =>
    refine ⟨a, rfl, ?_⟩
    injection h with h2
    rw [← h2]
  | vnull => exact Except.noConfusion h
  | vbool b => exact Except.noConfusion h
  | vnum q => exact Except.noConfusion h
  | vstr s => exact Except.noConfusion h
  | vlist l => exact Except.noConfusion h
  | vdict dd => exact Except.noConfusion h

set_option maxHeartbeats 2000000 in
/-- C4: every successfully produced `write_dict` contains exactly the
documented write key set, in order — sequence identifiers, the write flags
(`lChanged` true, `copyColor`, `isUnEditable` false), the UTC-rendered
punches, the pay code and at most the first four assigned categories — and
none of the vendor-computed read-only totals (src/novatime.py lines
1273-1307). -/
theorem c4_write_shape :
    ∀ (e : TimesheetEntry) (d : Dict), TimesheetEntry.write_dict e = .ok d →
      d.map Prod.fst = writeDictKeys ∧
      readOnlyTotalsKeys.all (fun k => (dictLookup d k).isNone) = true ∧
      dictLookup d "lChanged" = some (.vbool true) ∧
      dictLookup d "isUnEditable" = some (.vbool false) ∧
      dictLookup d "copyColor" = some e.copy_color ∧
      (∃ p, e.punch_in.punch = .varrow p ∧
            dictLookup d "dIn" = some (.vstr (formatWrite p.toUtc))) ∧
      (∃ q pout, e.punch_out = some pout ∧ pout.punch = .varrow q ∧
            dictLookup d "dOut" = some (.vstr (formatWrite q.toUtc))) ∧
      (∃ ws, (e.categories.take 4).mapM EntryCategory.write_dict = .ok ws ∧
             dictLookup d "GroupValueList" = some (listOrNone (ws.map Value.vdict))) := by
  intro e d h
  unfold TimesheetEntry.write_dict at h
  obtain ⟨pout, hpo, h⟩ := bind_ok_elim h
  obtain ⟨dp, hdp, h⟩ := bind_ok_elim h
  obtain ⟨dw, hdw, h⟩ := bind_ok_elim h
  obtain ⟨vin, hvin, h⟩ := bind_ok_elim h
  obtain ⟨vout, hvout, h⟩ := bind_ok_elim h
  obtain ⟨ws, hws, h⟩ := bind_ok_elim h
  injection h with h2
  subst h2
  obtain ⟨pin, hpin, hr⟩ := toUtcWriteValue_ok hvin
  subst hr
  obtain ⟨pq, hpq, hr2⟩ := toUtcWriteValue_ok hvout
  subst hr2
  have hpo' : e.punch_out = some pout := by
    cases hx : e.punch_out with
    | none => rw [hx] at hpo; exact Except.noConfusion hpo
    | some p => rw [hx] at hpo; injection hpo with h3; rw [h3]
  exact ⟨rfl, rfl, rfl, rfl, rfl, ⟨pin, hpin, rfl⟩, ⟨pq, pout, hpo', hpq, rfl⟩,
         ⟨ws, hws, rfl⟩⟩

/-- The write dict of the closed sample entry. -/
def wdClosed : Dict :=
  match TimesheetEntry.write_dict entryClosed with
  | .ok d => d
  | .error _ => []

/-- C4 witness: the write-shape properties evaluated on the concrete closed
entry. -/
theorem c4_write_shape_witness :
    TimesheetEntry.write_dict entryClosed = .ok wdClosed ∧
    (wdClosed.map Prod.fst = writeDictKeys ∧
     readOnlyTotalsKeys.all (fun k => (dictLookup wdClosed k).isNone) = true ∧
     dictLookup wdClosed "lChanged" = some (.vbool true) ∧
     dictLookup wdClosed "isUnEditable" = some (.vbool false) ∧
     dictLookup wdClosed "copyColor" = some entryClosed.copy_color ∧
     (∃ p, entryClosed.punch_in.punch = .varrow p ∧
           dictLookup wdClosed "dIn" = some (.vstr (formatWrite p.toUtc))) ∧
     (∃ q pout, entryClosed.punch_out = some pout ∧ pout.punch = .varrow q ∧
           dictLookup wdClosed "dOut" = some (.vstr (formatWrite q.toUtc))) ∧
     (∃ ws, (entryClosed.categories.take 4).mapM EntryCategory.write_dict = .ok ws ∧
            dictLookup wdClosed "GroupValueList" = some (listOrNone (ws.map Value.vdict)))) :=
  ⟨rfl, c4_write_shape entryClosed wdClosed rfl⟩

/-- When every date key differs from today, the lookup loop finds nothing. -/
theorem lookupToday_eq_none (today : Arrow) :
    ∀ entries : List (Value × List TimesheetEntry),
      (∀ kv ∈ entries, keyEq kv.1 (.varrow today) = false) →
      lookupToday today entries = none := by
  intro entries
  induction entries with
  | nil => intro _; rfl
  | cons kv rest ih =>
    obtain ⟨k, l⟩ := kv
    intro hall
    have hk : keyEq k (.varrow today) = false := hall (k, l) (by simp)
    simp only [lookupToday, hk]
    exact ih fun x hx => hall x (List.mem_cons_of_mem _ hx)

/-- The entry loop of `predict_clock_out` is last-wins: provided no earlier
iteration raises (every missing-punch entry carries a parsed in punch), the
returned pair is determined by the final entry alone. -/
theorem predictLoop_last (remaining : Timedelta) :
    ∀ (l : List TimesheetEntry) (acc : Value × Value) (eL : TimesheetEntry) (p : Arrow),
      l.getLast? = some eL →
      (∀ e ∈ l, truthy e.exceptions.missing_punch = true → ∃ q, e.punch_in.punch = .varrow q) →
      truthy eL.exceptions.missing_punch = true →
      eL.punch_in.punch = .varrow p →
      predictLoop remaining acc l =
        .ok (.varrow p, .varrow (if remaining > 8 * microsPerHour
          then (p.addDelta remaining).addDelta eL.exceptions.auto_meal_minutes
          else p.addDelta remaining)) := by
  intro l
  induction l with
  | nil => intro acc eL p hL _ _ _; simp at hL
  | cons e rest ih =>
    intro acc eL p hL hall hmp hpp
    cases rest with
    | nil =>
      have he : e = eL := by simpa using hL
      subst he
      simp [predictLoop, hmp, hpp]
    | cons e2 rs =>
      have hL' : (e2 :: rs).getLast? = some eL := by
        simpa [List.getLast?_cons_cons] using hL
      have hall' : ∀ x ∈ e2 :: rs, truthy x.exceptions.missing_punch = true →
          ∃ q, x.punch_in.punch = .varrow q :=
        fun x hx => hall x (List.mem_cons_of_mem _ hx)
      cases hm : truthy e.exceptions.missing_punch with
      | false =>
        simp only [predictLoop, hm, Bool.false_eq_true, if_false]
        exact ih (e.punch_in.punch, Value.vnull) eL p hL' hall' hmp hpp
      | true =>
        obtain ⟨q, hq⟩ := hall e (by simp) hm
        simp only [predictLoop, hm, if_true, hq]
        exact ih (Value.varrow q,
          Value.varrow (if remaining > 8 * microsPerHour
            then (q.addDelta remaining).addDelta e.exceptions.auto_meal_minutes
            else q.addDelta remaining)) eL p hL' hall' hmp hpp

/-- C5: `Timesheet.predict_clock_out` (src/novatime.py lines 1842-1878).
With no entry list keyed by today's date it returns `(None, None)`.  With
today's (nonempty) entry list, the last-iterated entry wins: when that entry
carries the missing-punch exception and a parsed in punch, the prediction is
`punch_in + remaining`, further shifted by the entry's `auto_meal_minutes`
exactly when more than eight hours remain. -/
theorem c5_predict_clock_out :
    (∀ (now : Arrow) (entries : List (Value × List TimesheetEntry)) (remaining : Timedelta),
       (∀ kv ∈ entries, keyEq kv.1 (.varrow now.floorDay) = false) →
       predict_clock_out now entries remaining = .ok (.vnull, .vnull)) ∧
    (∀ (now : Arrow) (entries : List (Value × List TimesheetEntry)) (remaining : Timedelta)
       (l : List TimesheetEntry) (eL : TimesheetEntry) (p : Arrow),
       lookupToday now.floorDay entries = some l →
       l.getLast? = some eL →
       (∀ e ∈ l, truthy e.exceptions.missing_punch = true → ∃ q, e.punch_in.punch = .varrow q) →
       truthy eL.exceptions.missing_punch = true →
       eL.punch_in.punch = .varrow p →
       predict_clock_out now entries remaining =
         .ok (.varrow p, .varrow (if remaining > 8 * microsPerHour
           then (p.addDelta remaining).addDelta eL.exceptions.auto_meal_minutes
           else p.addDelta remaining))) := by
  constructor
  · intro now entries remaining hall
    unfold predict_clock_out
    rw [lookupToday_eq_none now.floorDay entries hall]
  · intro now entries remaining l eL p hlook hL hall hmp hpp
    unfold predict_clock_out
    rw [hlook]
    cases l with
    | nil => simp at hL
    | cons e rest =>
      exact predictLoop_last remaining (e :: rest) (.vnull, .vnull) eL p hL hall hmp hpp

/-- The instant 2022-06-22 09:00 Detroit. -/
def arrow9am : Arrow :=
  ⟨(daysFromCivil 2022 6 22 * 86400 + 32400) * microsPerSecond, .detroit⟩

/-- The instant 2022-06-22 18:30 Detroit. -/
def arrow630pm : Arrow :=
  ⟨(daysFromCivil 2022 6 22 * 86400 + 66600) * microsPerSecond, .detroit⟩

set_option maxHeartbeats 4000000 in
/-- C5 witness: the scenario of the spec — punch in 09:00, missing punch,
`auto_meal_minutes` 30, nine hours remaining — predicts an 18:30 clock-out,
and an entries map without today's key yields `(None, None)`. -/
theorem c5_predict_clock_out_witness :
    predict_clock_out nowWed [(entryOpen.punch_date, [entryOpen])] (9 * microsPerHour) =
      .ok (.varrow arrow9am, .varrow arrow630pm) ∧
    predict_clock_out nowWed [] (9 * microsPerHour) = .ok (.vnull, .vnull) := by
  constructor
  · exact (c5_predict_clock_out.2 nowWed [(entryOpen.punch_date, [entryOpen])] (9 * microsPerHour)
      [entryOpen] entryOpen arrow9am rfl rfl
      (by intro e he hm; simp only [List.mem_singleton] at he; subst he; exact ⟨arrow9am, rfl⟩)
      rfl rfl).trans rfl
  · exact c5_predict_clock_out.1 nowWed [] (9 * microsPerHour) (by intro kv hkv; cases hkv)

/-- `this_sunday` of `Timesheet.is_this_week`: now shifted forward to Sunday,
floored to midnight. -/
def thisSundayOf (now : Arrow) : Arrow := now.shiftToSunday.floorDay

/-- `last_sunday` of `Timesheet.is_this_week`: one week before `this_sunday`. -/
def lastSundayOf (now : Arrow) : Arrow := ((thisSundayOf now).addDays (-7)).floorDay

/-- The Saturday strictly preceding now's date (the claim's "preceding
Saturday"): one to seven days back, landing on weekday 5. -/
def precedingSaturdayOf (now : Arrow) : Arrow :=
  now.floorDay.addDays (-(Int.emod (weekdayOfDays now.dayNumber + 1) 7 + 1))

/-- C6 counterexample: with "now" fixed at Wednesday 2022-06-22, a single
entry dated the following Sunday 2022-06-26 is accumulated into
`hours.last_week`, not into `hours.this_week` as the claim states — the
half-open week interval excludes `this_sunday`. -/
theorem c6_counterexample :
    (get_times nowWed [rawSunday]).map (fun st => (st.hours.this_week, st.hours.last_week)) =
      .ok (0, 8 * microsPerHour) := rfl

/-- C6 amended: `is_this_week` classifies by the half-open interval
`[last_sunday, this_sunday)` anchored to now's real-world week (confirmed);
consequently the following Sunday (`this_sunday` itself) is excluded and lands
in the `last_week` bucket, and for any non-Sunday "now" the strictly preceding
Saturday is likewise excluded (src/novatime.py lines 1836-1840). -/
theorem c6_week_bucket :
    (∀ (now d : Arrow),
       is_this_week now d = (absLe (lastSundayOf now) d && absLt d (thisSundayOf now))) ∧
    (∀ now : Arrow, is_this_week now (thisSundayOf now) = false) ∧
    (∀ now : Arrow, weekdayOfDays now.dayNumber ≠ 6 →
       is_this_week now (precedingSaturdayOf now) = false) := by
  have hform : ∀ (now d : Arrow),
      is_this_week now d = (absLe (lastSundayOf now) d && absLt d (thisSundayOf now)) :=
    fun now d => rfl
  refine ⟨hform, ?_, ?_⟩
  · intro now
    rw [hform]
    have h1 : absLt (thisSundayOf now) (thisSundayOf now) = false := by
      simp [absLt]
    rw [h1, Bool.and_false]
  · intro now hwd
    rw [hform]
    have key : (precedingSaturdayOf now).wall + microsPerDay ≤ (lastSundayOf now).wall := by
      have hfd : ∀ a : Int, Int.fdiv a 86400000000 = a / 86400000000 :=
        fun a => Int.fdiv_eq_ediv a (by norm_num)
      simp only [precedingSaturdayOf, lastSundayOf, thisSundayOf, Arrow.floorDay,
        Arrow.addDays, Arrow.addDelta, Arrow.shiftToSunday, Arrow.dayNumber,
        weekdayOfDays, microsPerDay, hfd,
        Int.add_mul_ediv_right _ _ (by norm_num : (86400000000 : Int) ≠ 0),
        Int.mul_ediv_cancel _ (by norm_num : (86400000000 : Int) ≠ 0)] at hwd ⊢
      have h0 : 0 ≤ (now.wall / 86400000000 + 3).emod 7 := Int.emod_nonneg _ (by norm_num)
      have h7 : (now.wall / 86400000000 + 3).emod 7 < 7 := Int.emod_lt_of_pos _ (by norm_num)
      have e1 : ((now.wall / 86400000000 + 3).emod 7 + 1).emod 7 =
          (now.wall / 86400000000 + 3).emod 7 + 1 :=
        Int.emod_eq_of_lt (by omega) (by omega)
      have e2 : (6 - (now.wall / 86400000000 + 3).emod 7).emod 7 =
          6 - (now.wall / 86400000000 + 3).emod 7 :=
        Int.emod_eq_of_lt (by omega) (by omega)
      rw [e1, e2]
      omega
    have h2 : absLe (lastSundayOf now) (precedingSaturdayOf now) = false := by
      simp only [absLe, decide_eq_false_iff_not, not_le]
      exact absSeconds_lt_of_wall_gap _ _ key
    rw [h2, Bool.false_and]

/-- C6 witness: the amended statement evaluated at the fixed Wednesday
2022-06-22. -/
theorem c6_week_bucket_witness :
    weekdayOfDays nowWed.dayNumber ≠ 6 ∧
    is_this_week nowWed (precedingSaturdayOf nowWed) = false ∧
    is_this_week nowWed (thisSundayOf nowWed) = false :=
  ⟨by decide, c6_week_bucket.2.2 nowWed (by decide), c6_week_bucket.2.1 nowWed⟩

/-- Placeholder category for destructuring `Except` results in closed
statements (never reachable there). -/
def dummyCategory : EntryCategory :=
  ⟨Value.vnull, Value.vnull, Value.vnull, Value.vnull, Value.vnull, Value.vnull,
   ⟨Value.vnull, Value.vnull⟩, Value.vnull, Value.vnull, Value.vnull⟩

/-- Category with display value "100" and group sequence 55. -/
def catA : EntryCategory :=
  match EntryCategory.init (.vdict (rawCategory (.vstr "100") "Job A" (.vnum 55))) with
  | .ok c => c
  | .error _ => dummyCategory

/-- Category with a different display value "200" but the same group
sequence 55 as `catA`. -/
def catB : EntryCategory :=
  match EntryCategory.init (.vdict (rawCategory (.vstr "200") "Job B" (.vnum 55))) with
  | .ok c => c
  | .error _ => dummyCategory

/-- Category with the same display value "100" as `catA` but an updated
description. -/
def catA2 : EntryCategory :=
  match EntryCategory.init (.vdict (rawCategory (.vstr "100") "Job A v2" (.vnum 55))) with
  | .ok c => c
  | .error _ => dummyCategory

/-- C7 counterexample: a second page repeating `catA`'s `group_seq` (55) under
a different display value is stored as a second, separate map entry — the
first page's entry survives untouched and zero warnings are emitted, not the
claim's "exactly one", because `EntryCategoryGroup.update` keys by
`option.value` (`cGroupValue`), not by `group_seq`
(src/novatime.py lines 325-334). -/
theorem c7_counterexample :
    catA.group_seq = catB.group_seq ∧
    catA.value ≠ catB.value ∧
    (EntryCategoryGroup.update (EntryCategoryGroup.update [] [catA]).1 [catB]).2.length = 0 ∧
    (EntryCategoryGroup.update (EntryCategoryGroup.update [] [catA]).1 [catB]).1.length = 2 ∧
    ecLookup (EntryCategoryGroup.update (EntryCategoryGroup.update [] [catA]).1 [catB]).1
      catA.value = some catA := by
  refine ⟨rfl, ?_, rfl, rfl, rfl⟩
  intro h
  injection h with h2
  exact absurd h2 (by decide)

/-- C7 amended: the merge is keyed by the category's display value
(`cGroupValue`); an incoming option whose value is already present overwrites
that entry in place and emits exactly one warning naming the key and the old
and new categories. -/
theorem c7_update_by_value :
    ∀ (m : List (Value × EntryCategory)) (c old : EntryCategory),
      ecLookup m c.value = some old →
      EntryCategoryGroup.update m [c] = (ecSet m c.value c, [⟨c.value, old, c⟩]) := by
  intro m c old h
  simp [EntryCategoryGroup.update, h]

/-- C7 witness: the amended statement evaluated on a map holding `catA` under
value "100" with the updated `catA2` arriving for the same value. -/
theorem c7_update_by_value_witness :
    ecLookup [(Value.vstr "100", catA)] catA2.value = some catA ∧
    EntryCategoryGroup.update [(Value.vstr "100", catA)] [catA2] =
      (ecSet [(Value.vstr "100", catA)] catA2.value catA2, [⟨catA2.value, catA, catA2⟩]) :=
  ⟨rfl, c7_update_by_value [(Value.vstr "100", catA)] catA2 catA rfl⟩

/-- A server whose page 1 and page 2 both report two total items yet return
the same display value "A" (vendor re-serving an item across pages). -/
def pageDup (n : Nat) : PageResp :=
  if n = 1 then ⟨1, "", 2, [.vdict (rawCategory (.vstr "A") "Opt A" (.vnum 70))]⟩
  else ⟨1, "", 2, [.vdict (rawCategory (.vstr "A") "Opt A2" (.vnum 71))]⟩

/-- The state in which the paged fetch against `pageDup` ends. -/
def stDup : FetchState :=
  match fetchLoop pageDup 10 fetchInit with
  | .ok (some st) => st
  | _ => fetchInit

/-- C8 counterexample: against `pageDup` the loop terminates (well within the
fuel) holding a single stored option while the server-reported total is two —
the progress bar's cumulative count reached the total even though the
duplicate value collapsed into one map entry, so the loop does not end
"exactly when `len(options) >= items_total`"
(src/novatime.py lines 1700-1726). -/
theorem c8_counterexample :
    fetchLoop pageDup 10 fetchInit = .ok (some stDup) ∧
    stDup.options.length = 1 ∧
    (pageDup stDup.page).itemTotal = 2 ∧
    stDup.warnings.length = 1 ∧
    stDup.options.length < (pageDup stDup.page).itemTotal :=
  ⟨rfl, rfl, rfl, rfl, by decide⟩

/-- C8 amended: whenever the paged fetch loop exits normally, it does so
either because the progress bar finished (the cumulative count of fetched
page items reached the total recorded from page 1) or because the stored
option count equalled the current page's reported `ItemTotal` at the top of
an iteration — not because `len(options)` reached the total. -/
theorem c8_loop_exit :
    ∀ (pages : Nat → PageResp) (fuel : Nat) (st st' : FetchState),
      fetchLoop pages fuel st = .ok (some st') →
      progressFinished st' = true ∨ st'.options.length = (pages st'.page).itemTotal := by
  intro pages fuel
  induction fuel with
  | zero => intro st st' h; simp [fetchLoop] at h
  | succ n ih =>
    intro st st' h
    simp only [fetchLoop] at h
    by_cases hf : progressFinished st
    · rw [if_pos hf] at h
      simp only [Except.ok.injEq, Option.some.injEq] at h
      subst h
      exact Or.inl hf
    · rw [if_neg hf] at h
      by_cases he : (pages st.page).errorCode ≠ 1
      · rw [if_pos he] at h
        exact absurd h (by simp)
      · rw [if_neg he] at h
        by_cases hl : st.options.length = (pages st.page).itemTotal
        · rw [if_pos hl] at h
          simp only [Except.ok.injEq, Option.some.injEq] at h
          subst h
          exact Or.inr hl
        · rw [if_neg hl] at h
          obtain ⟨opts, _, h⟩ := bind_ok_elim h
          exact ih _ st' h

/-- C8 witness: the exit characterization applied to the concrete duplicate
serving server. -/
theorem c8_loop_exit_witness :
    fetchLoop pageDup 10 fetchInit = .ok (some stDup) ∧
    (progressFinished stDup = true ∨ stDup.options.length = (pageDup stDup.page).itemTotal) :=
  ⟨rfl, c8_loop_exit pageDup 10 fetchInit stDup rfl⟩
